import Mathlib

/-!
# perf-cpp: `include/perfcpp/sample.h`

A shallow embedding of the value types declared in `sample.h`
(`DataSource`, `Branch`, `Weight`, `Sample`) together with the properties the
specification states about them.  The ring-buffer reader and the sampler, whose
code is not among the sources, are modelled from the specification in a section
of their own.

Conventions.  The fixed-width unsigned types of the source are carried by
`Nat`; a theorem about an `n`-bit value assumes the value is below `2 ^ n`.
A reduction `% 2 ^ w` is written wherever the source reads a bit-field or
converts between widths.  `static_cast<bool>(e)` of an integer `e` is `e != 0`,
and of a comparison is the comparison itself.  A `std::optional<T>` is an
`Option T`, a `std::vector<T>` a `List T`.
-/

namespace perf

abbrev uint16_t := Nat
abbrev uint32_t := Nat
abbrev uint64_t := Nat
abbrev uintptr_t := Nat

/-! ## The kernel header `linux/perf_event.h` -/

/-- Modelled from the spec: the bit-field members of `union perf_mem_data_src`.
The union is declared in the kernel header `linux/perf_event.h`, which is not
among the sources; the members are listed in declaration order. -/
inductive MemField
  | mem_op
  | mem_lvl
  | mem_snoop
  | mem_lock
  | mem_dtlb
  | mem_lvl_num
  | mem_remote
  | mem_snoopx
  | mem_blk
  | mem_hops
  | mem_rsvd
  deriving DecidableEq, Repr

/-- Modelled from the spec: the declaration of `perf_mem_data_src` (kernel header
`linux/perf_event.h`, little-endian variant), as the list of its bit-field
members with their widths, in declaration order.  The widths add up to 64. -/
def perf_mem_data_src : List (MemField × Nat) :=
  [ (.mem_op, 5), (.mem_lvl, 14), (.mem_snoop, 5), (.mem_lock, 2), (.mem_dtlb, 7),
    (.mem_lvl_num, 4), (.mem_remote, 1), (.mem_snoopx, 2), (.mem_blk, 3),
    (.mem_hops, 3), (.mem_rsvd, 18) ]

/-- Position of the lowest bit of member `f`: a little-endian bit-field packs its
members from the least significant bit upwards, in declaration order. -/
def bitOffset : List (MemField × Nat) → MemField → Nat
  | [], _ => 0
  | (g, w) :: rest, f => if g = f then 0 else w + bitOffset rest f

/-- Declared width of member `f`. -/
def bitWidth : List (MemField × Nat) → MemField → Nat
  | [], _ => 0
  | (g, w) :: rest, f => if g = f then w else bitWidth rest f

/-- Reading member `f` of the `perf_mem_data_src` overlaid on the 64-bit word
`raw`, i.e. `reinterpret_cast<const perf_mem_data_src*>(&raw)->f`. -/
def readMember (raw : uint64_t) (f : MemField) : uint64_t :=
  (raw / 2 ^ bitOffset perf_mem_data_src f) % 2 ^ bitWidth perf_mem_data_src f

/-! Modelled constants of `linux/perf_event.h` (kernel ABI values). -/

/-- Modelled from the spec: `PERF_MEM_OP_NA` of the kernel header (not in the sources). -/
def PERF_MEM_OP_NA : Nat := 0x01
/-- Modelled from the spec: `PERF_MEM_OP_LOAD` of the kernel header (not in the sources). -/
def PERF_MEM_OP_LOAD : Nat := 0x02
/-- Modelled from the spec: `PERF_MEM_OP_STORE` of the kernel header (not in the sources). -/
def PERF_MEM_OP_STORE : Nat := 0x04
/-- Modelled from the spec: `PERF_MEM_OP_PFETCH` of the kernel header (not in the sources). -/
def PERF_MEM_OP_PFETCH : Nat := 0x08
/-- Modelled from the spec: `PERF_MEM_OP_EXEC` of the kernel header (not in the sources). -/
def PERF_MEM_OP_EXEC : Nat := 0x10

/-- Modelled from the spec: `PERF_MEM_LVL_HIT` of the kernel header (not in the sources). -/
def PERF_MEM_LVL_HIT : Nat := 0x02
/-- Modelled from the spec: `PERF_MEM_LVL_MISS` of the kernel header (not in the sources). -/
def PERF_MEM_LVL_MISS : Nat := 0x04
/-- Modelled from the spec: `PERF_MEM_LVL_L2` of the kernel header (not in the sources). -/
def PERF_MEM_LVL_L2 : Nat := 0x20
/-- Modelled from the spec: `PERF_MEM_LVL_REM_CCE1` of the kernel header (not in the sources). -/
def PERF_MEM_LVL_REM_CCE1 : Nat := 0x400
/-- Modelled from the spec: `PERF_MEM_LVL_REM_CCE2` of the kernel header (not in the sources). -/
def PERF_MEM_LVL_REM_CCE2 : Nat := 0x800

/-- Modelled from the spec: `PERF_MEM_REMOTE_REMOTE` of the kernel header (not in the sources). -/
def PERF_MEM_REMOTE_REMOTE : Nat := 0x01

/-- Modelled from the spec: `PERF_MEM_LVLNUM_L1` of the kernel header (not in the sources). -/
def PERF_MEM_LVLNUM_L1 : Nat := 0x01
/-- Modelled from the spec: `PERF_MEM_LVLNUM_L2` of the kernel header (not in the sources). -/
def PERF_MEM_LVLNUM_L2 : Nat := 0x02
/-- Modelled from the spec: `PERF_MEM_LVLNUM_L3` of the kernel header (not in the sources). -/
def PERF_MEM_LVLNUM_L3 : Nat := 0x03
/-- Modelled from the spec: `PERF_MEM_LVLNUM_L4` of the kernel header (not in the sources). -/
def PERF_MEM_LVLNUM_L4 : Nat := 0x04
/-- Modelled from the spec: `PERF_MEM_LVLNUM_CXL` of the kernel header (not in the sources). -/
def PERF_MEM_LVLNUM_CXL : Nat := 0x09
/-- Modelled from the spec: `PERF_MEM_LVLNUM_IO` of the kernel header (not in the sources). -/
def PERF_MEM_LVLNUM_IO : Nat := 0x0a
/-- Modelled from the spec: `PERF_MEM_LVLNUM_LFB` of the kernel header (not in the sources). -/
def PERF_MEM_LVLNUM_LFB : Nat := 0x0c
/-- Modelled from the spec: `PERF_MEM_LVLNUM_RAM` of the kernel header (not in the sources). -/
def PERF_MEM_LVLNUM_RAM : Nat := 0x0d
/-- Modelled from the spec: `PERF_MEM_LVLNUM_PMEM` of the kernel header (not in the sources). -/
def PERF_MEM_LVLNUM_PMEM : Nat := 0x0e

/-- Modelled from the spec: `PERF_MEM_SNOOP_HIT` of the kernel header (not in the sources). -/
def PERF_MEM_SNOOP_HIT : Nat := 0x04
/-- Modelled from the spec: `PERF_MEM_SNOOP_MISS` of the kernel header (not in the sources). -/
def PERF_MEM_SNOOP_MISS : Nat := 0x08
/-- Modelled from the spec: `PERF_MEM_SNOOP_HITM` of the kernel header (not in the sources). -/
def PERF_MEM_SNOOP_HITM : Nat := 0x10

/-- Modelled from the spec: `PERF_MEM_LOCK_LOCKED` of the kernel header (not in the sources). -/
def PERF_MEM_LOCK_LOCKED : Nat := 0x02

/-- Modelled from the spec: `PERF_MEM_TLB_HIT` of the kernel header (not in the sources). -/
def PERF_MEM_TLB_HIT : Nat := 0x02
/-- Modelled from the spec: `PERF_MEM_TLB_MISS` of the kernel header (not in the sources). -/
def PERF_MEM_TLB_MISS : Nat := 0x04
/-- Modelled from the spec: `PERF_MEM_TLB_L1` of the kernel header (not in the sources). -/
def PERF_MEM_TLB_L1 : Nat := 0x08
/-- Modelled from the spec: `PERF_MEM_TLB_L2` of the kernel header (not in the sources). -/
def PERF_MEM_TLB_L2 : Nat := 0x10
/-- Modelled from the spec: `PERF_MEM_TLB_WK` of the kernel header (not in the sources). -/
def PERF_MEM_TLB_WK : Nat := 0x20

/-- Modelled from the spec: `PERF_MEM_BLK_DATA` of the kernel header (not in the sources). -/
def PERF_MEM_BLK_DATA : Nat := 0x02
/-- Modelled from the spec: `PERF_MEM_BLK_ADDR` of the kernel header (not in the sources). -/
def PERF_MEM_BLK_ADDR : Nat := 0x04

/-- Modelled from the spec: `PERF_MEM_HOPS_0` of the kernel header (not in the sources). -/
def PERF_MEM_HOPS_0 : Nat := 0x01
/-- Modelled from the spec: `PERF_MEM_HOPS_1` of the kernel header (not in the sources). -/
def PERF_MEM_HOPS_1 : Nat := 0x02
/-- Modelled from the spec: `PERF_MEM_HOPS_2` of the kernel header (not in the sources). -/
def PERF_MEM_HOPS_2 : Nat := 0x03
/-- Modelled from the spec: `PERF_MEM_HOPS_3` of the kernel header (not in the sources). -/
def PERF_MEM_HOPS_3 : Nat := 0x04

/-! ## `class DataSource` -/

/-- The class `DataSource`: one private member, the packed descriptor. -/
structure DataSource where
  _data_source : uint64_t
  deriving DecidableEq, Repr

namespace DataSource

def op (d : DataSource) : uint64_t := readMember d._data_source .mem_op
def lvl (d : DataSource) : uint64_t := readMember d._data_source .mem_lvl
def remote (d : DataSource) : uint64_t := readMember d._data_source .mem_remote
def lvl_num (d : DataSource) : uint64_t := readMember d._data_source .mem_lvl_num
def snoop (d : DataSource) : uint64_t := readMember d._data_source .mem_snoop
def snoopx (d : DataSource) : uint64_t := readMember d._data_source .mem_snoopx
def lock (d : DataSource) : uint64_t := readMember d._data_source .mem_lock
def tlb (d : DataSource) : uint64_t := readMember d._data_source .mem_dtlb
def blk (d : DataSource) : uint64_t := readMember d._data_source .mem_blk
def hops (d : DataSource) : uint64_t := readMember d._data_source .mem_hops

def is_load (d : DataSource) : Bool := (d.op &&& PERF_MEM_OP_LOAD) != 0
def is_store (d : DataSource) : Bool := (d.op &&& PERF_MEM_OP_STORE) != 0
def is_prefetch (d : DataSource) : Bool := (d.op &&& PERF_MEM_OP_PFETCH) != 0
def is_exec (d : DataSource) : Bool := (d.op &&& PERF_MEM_OP_EXEC) != 0
def is_na (d : DataSource) : Bool := (d.op &&& PERF_MEM_OP_NA) != 0
def is_mem_hit (d : DataSource) : Bool := (d.lvl &&& PERF_MEM_LVL_HIT) != 0
def is_mem_miss (d : DataSource) : Bool := (d.lvl &&& PERF_MEM_LVL_MISS) != 0
def is_mem_l1 (d : DataSource) : Bool := d.lvl_num == PERF_MEM_LVLNUM_L1
def is_mem_lfb (d : DataSource) : Bool := d.lvl_num == PERF_MEM_LVLNUM_LFB
def is_mem_l2 (d : DataSource) : Bool := d.lvl_num == PERF_MEM_LVLNUM_L2
def is_mem_l3 (d : DataSource) : Bool := d.lvl_num == PERF_MEM_LVLNUM_L3
def is_mem_l4 (d : DataSource) : Bool := d.lvl_num == PERF_MEM_LVLNUM_L4
def is_mem_ram (d : DataSource) : Bool := d.lvl_num == PERF_MEM_LVLNUM_RAM
def is_mem_local_ram (d : DataSource) : Bool :=
  (d.lvl_num == PERF_MEM_LVLNUM_RAM) && (d.remote != PERF_MEM_REMOTE_REMOTE)
def is_mem_remote_ram (d : DataSource) : Bool :=
  (d.lvl_num == PERF_MEM_LVLNUM_RAM) && (d.remote == PERF_MEM_REMOTE_REMOTE)
def is_mem_hops0 (d : DataSource) : Bool := d.hops == PERF_MEM_HOPS_0
def is_mem_hops1 (d : DataSource) : Bool := d.hops == PERF_MEM_HOPS_1
def is_mem_hops2 (d : DataSource) : Bool := d.hops == PERF_MEM_HOPS_2
def is_mem_hops3 (d : DataSource) : Bool := d.hops == PERF_MEM_HOPS_3
def is_mem_remote_ram1 (d : DataSource) : Bool := d.is_mem_remote_ram && d.is_mem_hops1
def is_mem_remote_ram2 (d : DataSource) : Bool := d.is_mem_remote_ram && d.is_mem_hops2
def is_mem_remote_ram3 (d : DataSource) : Bool := d.is_mem_remote_ram && d.is_mem_hops3
def is_mem_remote_cce1 (d : DataSource) : Bool := (d.lvl &&& PERF_MEM_LVL_REM_CCE1) != 0
def is_mem_remote_cce2 (d : DataSource) : Bool := (d.lvl &&& PERF_MEM_LVL_REM_CCE2) != 0
def is_pmem (d : DataSource) : Bool := d.lvl_num == PERF_MEM_LVLNUM_PMEM
def is_cxl (d : DataSource) : Bool := d.lvl_num == PERF_MEM_LVLNUM_CXL
def is_io (d : DataSource) : Bool := d.lvl_num == PERF_MEM_LVLNUM_IO
def is_tlb_hit (d : DataSource) : Bool := (d.tlb &&& PERF_MEM_TLB_HIT) != 0
def is_tlb_miss (d : DataSource) : Bool := (d.tlb &&& PERF_MEM_TLB_MISS) != 0
def is_tlb_l1 (d : DataSource) : Bool := (d.tlb &&& PERF_MEM_TLB_L1) != 0
def is_tlb_l2 (d : DataSource) : Bool := (d.tlb &&& PERF_MEM_TLB_L2) != 0
def is_tlb_walk (d : DataSource) : Bool := (d.tlb &&& PERF_MEM_TLB_WK) != 0
def is_locked (d : DataSource) : Bool := (d.lock &&& PERF_MEM_LOCK_LOCKED) != 0
def is_data_blocked (d : DataSource) : Bool := (d.blk &&& PERF_MEM_BLK_DATA) != 0
def is_address_blocked (d : DataSource) : Bool := (d.blk &&& PERF_MEM_BLK_ADDR) != 0
def is_snoop_hit (d : DataSource) : Bool := (d.snoop &&& PERF_MEM_SNOOP_HIT) != 0
def is_snoop_miss (d : DataSource) : Bool := (d.snoop &&& PERF_MEM_SNOOP_MISS) != 0
def is_snoop_hit_modified (d : DataSource) : Bool := (d.snoop &&& PERF_MEM_SNOOP_HITM) != 0

end DataSource

/-! ## `class Branch` -/

/-- The class `Branch`: its seven private members, in declaration order. -/
structure Branch where
  _instruction_pointer_from : uintptr_t
  _instruction_pointer_to : uintptr_t
  _is_mispredicted : Bool
  _is_predicted : Bool
  _is_in_transaction : Bool
  _is_transaction_abort : Bool
  _cycles : uint16_t
  deriving DecidableEq, Repr

/-- The constructor `Branch::Branch`, with its member-initialiser list. -/
def Branch.new (instruction_pointer_from instruction_pointer_to : uintptr_t)
    (is_mispredicted is_predicted is_in_transaction is_transaction_abort : Bool)
    (cycles : uint16_t) : Branch :=
  { _instruction_pointer_from := instruction_pointer_from
    _instruction_pointer_to := instruction_pointer_to
    _is_mispredicted := is_mispredicted
    _is_predicted := is_predicted
    _is_in_transaction := is_in_transaction
    _is_transaction_abort := is_transaction_abort
    _cycles := cycles }

def Branch.instruction_pointer_from (b : Branch) : uintptr_t := b._instruction_pointer_from
def Branch.instruction_pointer_to (b : Branch) : uintptr_t := b._instruction_pointer_to
def Branch.is_mispredicted (b : Branch) : Bool := b._is_mispredicted
def Branch.is_predicted (b : Branch) : Bool := b._is_predicted
def Branch.is_in_transaction (b : Branch) : Bool := b._is_in_transaction
def Branch.is_transaction_abort (b : Branch) : Bool := b._is_transaction_abort
def Branch.cycles (b : Branch) : uint16_t := b._cycles

/-! ## `class Weight` -/

/-- The class `Weight`: `_latency` is a `uint32_t`; `_var2` and `_var3` are
`uint16_t` members with the default member initialiser `0U`. -/
structure Weight where
  _latency : uint32_t
  _var2 : uint16_t := 0
  _var3 : uint16_t := 0
  deriving DecidableEq, Repr

/-- The three-argument constructor `Weight(latency, var2_w, var3_w)`. -/
def Weight.triple (latency : uint32_t) (var2_w var3_w : uint16_t) : Weight :=
  { _latency := latency, _var2 := var2_w, _var3 := var3_w }

/-- The one-argument constructor `explicit Weight(latency)`: only `_latency` is
initialised, the other two members keep their default initialiser. -/
def Weight.single (latency : uint32_t) : Weight :=
  { _latency := latency }

def Weight.latency (w : Weight) : uint32_t := w._latency
/-- The accessor `var2()`: returns the `uint16_t` member as a `uint32_t`. -/
def Weight.var2 (w : Weight) : uint32_t := w._var2 % 2 ^ 32
/-- The accessor `var3()`: returns the `uint16_t` member as a `uint32_t`. -/
def Weight.var3 (w : Weight) : uint32_t := w._var3 % 2 ^ 32

/-! ## `class Sample` -/

/-- The enumeration `Sample::Mode`. -/
inductive Mode
  | Unknown
  | Kernel
  | User
  | Hypervisor
  | GuestKernel
  | GuestUser
  deriving DecidableEq, Repr

/-- The class `Sample`: its private members in declaration order, each optional
member with its default initialiser `std::nullopt`.  The class `CounterResult`
is declared in `counter.h`, which is not among the sources; it is a parameter. -/
structure Sample (CounterResult : Type) where
  _mode : Mode
  _sample_id : Option uint64_t := none
  _instruction_pointer : Option uintptr_t := none
  _process_id : Option uint32_t := none
  _thread_id : Option uint32_t := none
  _time : Option uint64_t := none
  _logical_memory_address : Option uintptr_t := none
  _physical_memory_address : Option uintptr_t := none
  _id : Option uint64_t := none
  _cpu_id : Option uint32_t := none
  _period : Option uint64_t := none
  _counter_result : Option CounterResult := none
  _data_src : Option DataSource := none
  _weight : Option Weight := none
  _branches : Option (List Branch) := none
  _user_registers_abi : Option uint64_t := none
  _user_registers : Option (List uint64_t) := none
  _kernel_registers : Option (List uint64_t) := none
  _kernel_registers_abi : Option uint64_t := none
  _callchain : Option (List uintptr_t) := none
  _data_page_size : Option uint64_t := none
  _code_page_size : Option uint64_t := none

section SampleOps

variable {CounterResult : Type}

/-- The constructor `Sample(Mode mode)`: only `_mode` is initialised. -/
def Sample.new (mode : Mode) : Sample CounterResult :=
  { _mode := mode }

/-! Setters.  The source overloads one name for the setter and the getter of a
field; the setter `f(..)` is `Sample.set_f` here. -/

def Sample.set_sample_id (s : Sample CounterResult) (sample_id : uint64_t) :
    Sample CounterResult :=
  { s with _sample_id := some sample_id }
def Sample.set_instruction_pointer (s : Sample CounterResult) (instruction_pointer : uintptr_t) :
    Sample CounterResult :=
  { s with _instruction_pointer := some instruction_pointer }
def Sample.set_process_id (s : Sample CounterResult) (process_id : uint32_t) :
    Sample CounterResult :=
  { s with _process_id := some process_id }
def Sample.set_thread_id (s : Sample CounterResult) (thread_id : uint32_t) :
    Sample CounterResult :=
  { s with _thread_id := some thread_id }
def Sample.set_timestamp (s : Sample CounterResult) (timestamp : uint64_t) :
    Sample CounterResult :=
  { s with _time := some timestamp }
def Sample.set_logical_memory_address (s : Sample CounterResult) (logical_memory_address : uintptr_t) :
    Sample CounterResult :=
  { s with _logical_memory_address := some logical_memory_address }
def Sample.set_physical_memory_address (s : Sample CounterResult) (physical_memory_address : uintptr_t) :
    Sample CounterResult :=
  { s with _physical_memory_address := some physical_memory_address }
def Sample.set_id (s : Sample CounterResult) (id : uint64_t) :
    Sample CounterResult :=
  { s with _id := some id }
def Sample.set_cpu_id (s : Sample CounterResult) (cpu_id : uint32_t) :
    Sample CounterResult :=
  { s with _cpu_id := some cpu_id }
def Sample.set_period (s : Sample CounterResult) (period : uint64_t) :
    Sample CounterResult :=
  { s with _period := some period }
def Sample.set_counter_result (s : Sample CounterResult) (counter_result : CounterResult) :
    Sample CounterResult :=
  { s with _counter_result := some counter_result }
def Sample.set_data_src (s : Sample CounterResult) (data_src : DataSource) :
    Sample CounterResult :=
  { s with _data_src := some data_src }
def Sample.set_weight (s : Sample CounterResult) (weight : Weight) :
    Sample CounterResult :=
  { s with _weight := some weight }
def Sample.set_branches (s : Sample CounterResult) (branches : List Branch) :
    Sample CounterResult :=
  { s with _branches := some branches }
def Sample.set_user_registers_abi (s : Sample CounterResult) (abi : uint64_t) :
    Sample CounterResult :=
  { s with _user_registers_abi := some abi }
def Sample.set_user_registers (s : Sample CounterResult) (user_registers : List uint64_t) :
    Sample CounterResult :=
  { s with _user_registers := some user_registers }
def Sample.set_kernel_registers_abi (s : Sample CounterResult) (abi : uint64_t) :
    Sample CounterResult :=
  { s with _kernel_registers_abi := some abi }
def Sample.set_kernel_registers (s : Sample CounterResult) (kernel_registers : List uint64_t) :
    Sample CounterResult :=
  { s with _kernel_registers := some kernel_registers }
def Sample.set_callchain (s : Sample CounterResult) (callchain : List uintptr_t) :
    Sample CounterResult :=
  { s with _callchain := some callchain }
def Sample.set_data_page_size (s : Sample CounterResult) (size : uint64_t) :
    Sample CounterResult :=
  { s with _data_page_size := some size }
def Sample.set_code_page_size (s : Sample CounterResult) (size : uint64_t) :
    Sample CounterResult :=
  { s with _code_page_size := some size }

/-! Getters (the `const` overloads). -/

def Sample.mode (s : Sample CounterResult) : Mode := s._mode
def Sample.sample_id (s : Sample CounterResult) : Option uint64_t := s._sample_id
def Sample.instruction_pointer (s : Sample CounterResult) : Option uintptr_t := s._instruction_pointer
def Sample.process_id (s : Sample CounterResult) : Option uint32_t := s._process_id
def Sample.thread_id (s : Sample CounterResult) : Option uint32_t := s._thread_id
def Sample.time (s : Sample CounterResult) : Option uint64_t := s._time
def Sample.logical_memory_address (s : Sample CounterResult) : Option uintptr_t := s._logical_memory_address
def Sample.physical_memory_address (s : Sample CounterResult) : Option uintptr_t := s._physical_memory_address
def Sample.id (s : Sample CounterResult) : Option uint64_t := s._id
def Sample.cpu_id (s : Sample CounterResult) : Option uint32_t := s._cpu_id
def Sample.period (s : Sample CounterResult) : Option uint64_t := s._period
def Sample.counter_result (s : Sample CounterResult) : Option CounterResult := s._counter_result
def Sample.data_src (s : Sample CounterResult) : Option DataSource := s._data_src
def Sample.weight (s : Sample CounterResult) : Option Weight := s._weight
def Sample.branches (s : Sample CounterResult) : Option (List Branch) := s._branches
def Sample.user_registers_abi (s : Sample CounterResult) : Option uint64_t := s._user_registers_abi
def Sample.user_registers (s : Sample CounterResult) : Option (List uint64_t) := s._user_registers
def Sample.kernel_registers_abi (s : Sample CounterResult) : Option uint64_t := s._kernel_registers_abi
def Sample.kernel_registers (s : Sample CounterResult) : Option (List uint64_t) := s._kernel_registers
def Sample.callchain (s : Sample CounterResult) : Option (List uintptr_t) := s._callchain
def Sample.data_page_size (s : Sample CounterResult) : Option uint64_t := s._data_page_size
def Sample.code_page_size (s : Sample CounterResult) : Option uint64_t := s._code_page_size

/-! Mutable accessors.  The non-`const` overloads of `branches()`,
`user_registers()`, `kernel_registers()` and `callchain()` return a reference to
the `std::optional` member itself.  Whatever a caller does through that
reference (assignment, `reset()`, `emplace(..)`, editing the contained vector)
replaces the member by some function `upd` of its current value. -/

def Sample.branches_mut (s : Sample CounterResult) (upd : Option (List Branch) → Option (List Branch)) :
    Sample CounterResult :=
  { s with _branches := upd s._branches }
def Sample.user_registers_mut (s : Sample CounterResult) (upd : Option (List uint64_t) → Option (List uint64_t)) :
    Sample CounterResult :=
  { s with _user_registers := upd s._user_registers }
def Sample.kernel_registers_mut (s : Sample CounterResult) (upd : Option (List uint64_t) → Option (List uint64_t)) :
    Sample CounterResult :=
  { s with _kernel_registers := upd s._kernel_registers }
def Sample.callchain_mut (s : Sample CounterResult) (upd : Option (List uintptr_t) → Option (List uintptr_t)) :
    Sample CounterResult :=
  { s with _callchain := upd s._callchain }

end SampleOps

/-- The optional fields of a `Sample`, named after their getters. -/
inductive Field
  | sample_id
  | instruction_pointer
  | process_id
  | thread_id
  | time
  | logical_memory_address
  | physical_memory_address
  | id
  | cpu_id
  | period
  | counter_result
  | data_src
  | weight
  | branches
  | user_registers_abi
  | user_registers
  | kernel_registers_abi
  | kernel_registers
  | callchain
  | data_page_size
  | code_page_size
  deriving DecidableEq, Repr

/-- One call of a setter of `Sample`, with its argument; the constructors carry
the names of the setters in the source. -/
inductive Setter (CounterResult : Type)
  | sample_id (sample_id : uint64_t)
  | instruction_pointer (instruction_pointer : uintptr_t)
  | process_id (process_id : uint32_t)
  | thread_id (thread_id : uint32_t)
  | timestamp (timestamp : uint64_t)
  | logical_memory_address (logical_memory_address : uintptr_t)
  | physical_memory_address (physical_memory_address : uintptr_t)
  | id (id : uint64_t)
  | cpu_id (cpu_id : uint32_t)
  | period (period : uint64_t)
  | counter_result (counter_result : CounterResult)
  | data_src (data_src : DataSource)
  | weight (weight : Weight)
  | branches (branches : List Branch)
  | user_registers_abi (abi : uint64_t)
  | user_registers (user_registers : List uint64_t)
  | kernel_registers_abi (abi : uint64_t)
  | kernel_registers (kernel_registers : List uint64_t)
  | callchain (callchain : List uintptr_t)
  | data_page_size (size : uint64_t)
  | code_page_size (size : uint64_t)

/-- One use of the public mutating interface of `Sample`: a setter call, or a
mutable accessor together with what the caller does through the reference. -/
inductive Op (CounterResult : Type)
  | set (c : Setter CounterResult)
  | branches (upd : Option (List Branch) → Option (List Branch))
  | user_registers (upd : Option (List uint64_t) → Option (List uint64_t))
  | kernel_registers (upd : Option (List uint64_t) → Option (List uint64_t))
  | callchain (upd : Option (List uintptr_t) → Option (List uintptr_t))

section SampleCalls

variable {CounterResult : Type}

/-- The field a setter belongs to. -/
def Setter.field : Setter CounterResult → Field
  | .sample_id _ => .sample_id
  | .instruction_pointer _ => .instruction_pointer
  | .process_id _ => .process_id
  | .thread_id _ => .thread_id
  | .timestamp _ => .time
  | .logical_memory_address _ => .logical_memory_address
  | .physical_memory_address _ => .physical_memory_address
  | .id _ => .id
  | .cpu_id _ => .cpu_id
  | .period _ => .period
  | .counter_result _ => .counter_result
  | .data_src _ => .data_src
  | .weight _ => .weight
  | .branches _ => .branches
  | .user_registers_abi _ => .user_registers_abi
  | .user_registers _ => .user_registers
  | .kernel_registers_abi _ => .kernel_registers_abi
  | .kernel_registers _ => .kernel_registers
  | .callchain _ => .callchain
  | .data_page_size _ => .data_page_size
  | .code_page_size _ => .code_page_size

/-- Performing one setter call on a sample. -/
def Sample.call (s : Sample CounterResult) : Setter CounterResult → Sample CounterResult
  | .sample_id a => s.set_sample_id a
  | .instruction_pointer a => s.set_instruction_pointer a
  | .process_id a => s.set_process_id a
  | .thread_id a => s.set_thread_id a
  | .timestamp a => s.set_timestamp a
  | .logical_memory_address a => s.set_logical_memory_address a
  | .physical_memory_address a => s.set_physical_memory_address a
  | .id a => s.set_id a
  | .cpu_id a => s.set_cpu_id a
  | .period a => s.set_period a
  | .counter_result a => s.set_counter_result a
  | .data_src a => s.set_data_src a
  | .weight a => s.set_weight a
  | .branches a => s.set_branches a
  | .user_registers_abi a => s.set_user_registers_abi a
  | .user_registers a => s.set_user_registers a
  | .kernel_registers_abi a => s.set_kernel_registers_abi a
  | .kernel_registers a => s.set_kernel_registers a
  | .callchain a => s.set_callchain a
  | .data_page_size a => s.set_data_page_size a
  | .code_page_size a => s.set_code_page_size a

/-- A fresh `Sample(mode)` followed by a sequence of setter calls, first call first. -/
def Sample.run (mode : Mode) (cs : List (Setter CounterResult)) : Sample CounterResult :=
  cs.foldl Sample.call (Sample.new mode)

/-- The field an operation writes to. -/
def Op.field : Op CounterResult → Field
  | .set c => c.field
  | .branches _ => .branches
  | .user_registers _ => .user_registers
  | .kernel_registers _ => .kernel_registers
  | .callchain _ => .callchain

/-- Performing one operation of the public mutating interface. -/
def Sample.perform (s : Sample CounterResult) : Op CounterResult → Sample CounterResult
  | .set c => s.call c
  | .branches upd => s.branches_mut upd
  | .user_registers upd => s.user_registers_mut upd
  | .kernel_registers upd => s.kernel_registers_mut upd
  | .callchain upd => s.callchain_mut upd

/-- Whether the getter of field `f` reports a value (`has_value()`). -/
def Sample.present (s : Sample CounterResult) : Field → Bool
  | .sample_id => (Sample.sample_id s).isSome
  | .instruction_pointer => (Sample.instruction_pointer s).isSome
  | .process_id => (Sample.process_id s).isSome
  | .thread_id => (Sample.thread_id s).isSome
  | .time => (Sample.time s).isSome
  | .logical_memory_address => (Sample.logical_memory_address s).isSome
  | .physical_memory_address => (Sample.physical_memory_address s).isSome
  | .id => (Sample.id s).isSome
  | .cpu_id => (Sample.cpu_id s).isSome
  | .period => (Sample.period s).isSome
  | .counter_result => (Sample.counter_result s).isSome
  | .data_src => (Sample.data_src s).isSome
  | .weight => (Sample.weight s).isSome
  | .branches => (Sample.branches s).isSome
  | .user_registers_abi => (Sample.user_registers_abi s).isSome
  | .user_registers => (Sample.user_registers s).isSome
  | .kernel_registers_abi => (Sample.kernel_registers_abi s).isSome
  | .kernel_registers => (Sample.kernel_registers s).isSome
  | .callchain => (Sample.callchain s).isSome
  | .data_page_size => (Sample.data_page_size s).isSome
  | .code_page_size => (Sample.code_page_size s).isSome

/-! The argument of a call when it is a call of the setter of the given field. -/

def Setter.sample_id_arg : Setter CounterResult → Option uint64_t
  | .sample_id a => some a
  | _ => none
def Setter.instruction_pointer_arg : Setter CounterResult → Option uintptr_t
  | .instruction_pointer a => some a
  | _ => none
def Setter.process_id_arg : Setter CounterResult → Option uint32_t
  | .process_id a => some a
  | _ => none
def Setter.thread_id_arg : Setter CounterResult → Option uint32_t
  | .thread_id a => some a
  | _ => none
def Setter.time_arg : Setter CounterResult → Option uint64_t
  | .timestamp a => some a
  | _ => none
def Setter.logical_memory_address_arg : Setter CounterResult → Option uintptr_t
  | .logical_memory_address a => some a
  | _ => none
def Setter.physical_memory_address_arg : Setter CounterResult → Option uintptr_t
  | .physical_memory_address a => some a
  | _ => none
def Setter.id_arg : Setter CounterResult → Option uint64_t
  | .id a => some a
  | _ => none
def Setter.cpu_id_arg : Setter CounterResult → Option uint32_t
  | .cpu_id a => some a
  | _ => none
def Setter.period_arg : Setter CounterResult → Option uint64_t
  | .period a => some a
  | _ => none
def Setter.counter_result_arg : Setter CounterResult → Option CounterResult
  | .counter_result a => some a
  | _ => none
def Setter.data_src_arg : Setter CounterResult → Option DataSource
  | .data_src a => some a
  | _ => none
def Setter.weight_arg : Setter CounterResult → Option Weight
  | .weight a => some a
  | _ => none
def Setter.branches_arg : Setter CounterResult → Option (List Branch)
  | .branches a => some a
  | _ => none
def Setter.user_registers_abi_arg : Setter CounterResult → Option uint64_t
  | .user_registers_abi a => some a
  | _ => none
def Setter.user_registers_arg : Setter CounterResult → Option (List uint64_t)
  | .user_registers a => some a
  | _ => none
def Setter.kernel_registers_abi_arg : Setter CounterResult → Option uint64_t
  | .kernel_registers_abi a => some a
  | _ => none
def Setter.kernel_registers_arg : Setter CounterResult → Option (List uint64_t)
  | .kernel_registers a => some a
  | _ => none
def Setter.callchain_arg : Setter CounterResult → Option (List uintptr_t)
  | .callchain a => some a
  | _ => none
def Setter.data_page_size_arg : Setter CounterResult → Option uint64_t
  | .data_page_size a => some a
  | _ => none
def Setter.code_page_size_arg : Setter CounterResult → Option uint64_t
  | .code_page_size a => some a
  | _ => none

end SampleCalls

/-! ## The ring-buffer reader and the sampler

`sampler.h` and its implementation are not among the sources.  This section
models the reader and the sampler from the specification (sections 4.3, 4.4
and 6); the wire format it refers to is the kernel ABI of `linux/perf_event.h`.
Bytes are natural numbers below 256. -/

/-- Modelled from the spec: the value of an unsigned integer stored as a
little-endian byte string, the byte order of the raw record wire format. -/
def le_uint : List Nat → Nat
  | [] => 0
  | b :: bs => b + 256 * le_uint bs

/-- Modelled from the spec: the `n`-byte little-endian representation of `v`, as
the producer writes an `n`-byte unsigned field of a raw record. -/
def to_le : Nat → Nat → List Nat
  | 0, _ => []
  | n + 1, v => v % 256 :: to_le n (v / 256)

/-- Modelled from the spec: the record type `PERF_RECORD_SAMPLE` of the kernel
header (not in the sources). -/
def PERF_RECORD_SAMPLE : Nat := 9

/-- Modelled from the spec: `PERF_SAMPLE_WEIGHT` of the kernel header. -/
def PERF_SAMPLE_WEIGHT : Nat := 2 ^ 14
/-- Modelled from the spec: `PERF_SAMPLE_DATA_SRC` of the kernel header. -/
def PERF_SAMPLE_DATA_SRC : Nat := 2 ^ 15
/-- Modelled from the spec: the flag `Sampler::Type::DataSource`. -/
def SamplerType.DataSource : uint64_t := PERF_SAMPLE_DATA_SRC
/-- Modelled from the spec: the flag `Sampler::Type::Weight`. -/
def SamplerType.Weight : uint64_t := PERF_SAMPLE_WEIGHT

/-- Modelled from the spec: the RingBufferReader of section 4.3 (its code is not
among the sources).  `data` is the data region of the mapped circular buffer, a
list of bytes whose length is a power of two; `data_head` is the producer
position and `data_tail` the consumer position of the control header, both
running byte counts; `lost` counts the records the producer had to drop. -/
structure RingBufferReader where
  data : List Nat
  data_head : Nat
  data_tail : Nat
  lost : Nat
  deriving DecidableEq, Repr

/-- Modelled from the spec: `has_pending()` compares the producer position with
the consumer position. -/
def RingBufferReader.has_pending (r : RingBufferReader) : Bool :=
  decide (r.data_tail < r.data_head)

/-- Modelled from the spec: the offset of the consumer position in the data
region; the region's size is a power of two, so the wrap-around is a mask. -/
def RingBufferReader.offset (r : RingBufferReader) : Nat :=
  r.data_tail &&& (r.data.length - 1)

/-- Modelled from the spec: copying `size` bytes out of the data region from the
consumer offset on, "handling wrap-around by splitting the copy at the buffer
boundary if the record straddles it". -/
def RingBufferReader.copy_out (r : RingBufferReader) (size : Nat) : List Nat :=
  if r.offset + size ≤ r.data.length then
    (r.data.drop r.offset).take size
  else
    r.data.drop r.offset ++ r.data.take (size - (r.data.length - r.offset))

/-- Modelled from the spec: the `size` field of the record header `{type: u32,
misc: u16, size: u16}` found at the consumer offset. -/
def RingBufferReader.record_size (r : RingBufferReader) : Nat :=
  le_uint ((r.copy_out 8).drop 6)

/-- Modelled from the spec: `next_raw_record()` "reads the record header at the
current consumer offset, copies exactly `size` bytes and returns the bytes; does
not yet advance the consumer position".  It returns none when nothing is
pending. -/
def RingBufferReader.next_raw_record (r : RingBufferReader) : Option (List Nat) :=
  if r.has_pending then some (r.copy_out r.record_size) else none

/-- Modelled from the spec: the producer side, which is the kernel.  It appends a
raw record at the producer position, wrapping at the end of the data region, and
advances the producer position; a record that does not fit into the free space
is dropped and counted as lost. -/
def RingBufferReader.inject (r : RingBufferReader) (record : List Nat) : RingBufferReader :=
  if r.data.length < (r.data_head - r.data_tail) + record.length then
    { r with lost := r.lost + 1 }
  else
    let pos := r.data_head &&& (r.data.length - 1)
    let room := r.data.length - pos
    if record.length ≤ room then
      { r with
        data := r.data.take pos ++ (record ++ r.data.drop (pos + record.length))
        data_head := r.data_head + record.length }
    else
      { r with
        data := record.drop room ++
          ((r.data.take pos).drop (record.length - room) ++ record.take room)
        data_head := r.data_head + record.length }

/-- Modelled from the spec: a raw record on the wire: the 8-byte header `{type:
u32, misc: u16, size: u16}` followed by `size - 8` payload bytes, here a sequence
of 64-bit sub-fields. -/
def raw_record (type misc : Nat) (fields : List uint64_t) : List Nat :=
  to_le 4 type ++ (to_le 2 misc ++ (to_le 2 (8 + 8 * fields.length) ++
    (fields.map (to_le 8)).flatten))

section SamplerModel

variable {CounterResult : Type}

end SamplerModel

/-- Modelled from the spec: the states of the sampler (section 4.4). -/
inductive SamplerState
  | Idle
  | Started
  | Stopped
  | Closed
  | Failed
  deriving DecidableEq, Repr

/-- Modelled from the spec: the Sampler of section 4.4 (its code is not among the
sources): the sample type mask given at construction, the state of the
lifecycle, the mapped ring buffer while there is one, and the last captured OS
error code. -/
structure Sampler where
  sample_type : uint64_t
  state : SamplerState
  buffer : Option RingBufferReader
  last_error : Nat
  deriving DecidableEq, Repr

/-- Modelled from the spec: construction with a sample type mask; the sampler is
`Idle`. -/
def Sampler.new (sample_type : uint64_t) : Sampler :=
  { sample_type := sample_type, state := .Idle, buffer := none, last_error := 0 }

/-- Modelled from the spec: `close()` unmaps the buffer and releases the kernel
resource. -/
def Sampler.close (s : Sampler) : Sampler :=
  { s with state := .Closed, buffer := none }

/-- A data region of 32 bytes whose producer and consumer stand at position 24
and into which the producer then writes one 16-byte record (type
`PERF_RECORD_SAMPLE`, misc 2, one 64-bit sub-field): the header takes the last 8
bytes of the region and the sub-field its first 8 bytes. -/
def wrapped_example : RingBufferReader :=
  ({ data := List.replicate 32 0, data_head := 24, data_tail := 24, lost := 0 } :
    RingBufferReader).inject (raw_record PERF_RECORD_SAMPLE 2 [0x8877665544332211])

/-! ## Bit ranges of the accessors -/

theorem bitOffset_values :
    bitOffset perf_mem_data_src .mem_op = 0 ∧ bitOffset perf_mem_data_src .mem_lvl = 5 ∧
    bitOffset perf_mem_data_src .mem_snoop = 19 ∧ bitOffset perf_mem_data_src .mem_lock = 24 ∧
    bitOffset perf_mem_data_src .mem_dtlb = 26 ∧ bitOffset perf_mem_data_src .mem_lvl_num = 33 ∧
    bitOffset perf_mem_data_src .mem_remote = 37 ∧ bitOffset perf_mem_data_src .mem_snoopx = 38 ∧
    bitOffset perf_mem_data_src .mem_blk = 40 ∧ bitOffset perf_mem_data_src .mem_hops = 43 ∧
    bitOffset perf_mem_data_src .mem_rsvd = 46 := by
  decide

theorem readMember_eq_shift_mask (raw : Nat) (f : MemField) :
    readMember raw f
      = (raw >>> bitOffset perf_mem_data_src f) &&& (2 ^ bitWidth perf_mem_data_src f - 1) := by
  unfold readMember
  rw [Nat.shiftRight_eq_div_pow, Nat.and_pow_two_sub_one_eq_mod]

/-- C1: for every 64-bit descriptor `v` each sub-field accessor of `DataSource` is
the fixed shift-and-mask of `v` given by the little-endian `perf_mem_data_src`
layout: op = v & 0x1F, lvl = (v >> 5) & 0x3FFF, snoop = (v >> 19) & 0x1F,
lock = (v >> 24) & 0x3, tlb = (v >> 26) & 0x7F, lvl_num = (v >> 33) & 0xF,
remote = (v >> 37) & 0x1, snoopx = (v >> 38) & 0x3, blk = (v >> 40) & 0x7,
hops = (v >> 43) & 0x7. -/
theorem C1_accessor_bit_ranges (v : Nat) (hv : v < 2 ^ 64) :
    (DataSource.mk v).op = v &&& 0x1F ∧
    (DataSource.mk v).lvl = (v >>> 5) &&& 0x3FFF ∧
    (DataSource.mk v).snoop = (v >>> 19) &&& 0x1F ∧
    (DataSource.mk v).lock = (v >>> 24) &&& 0x3 ∧
    (DataSource.mk v).tlb = (v >>> 26) &&& 0x7F ∧
    (DataSource.mk v).lvl_num = (v >>> 33) &&& 0xF ∧
    (DataSource.mk v).remote = (v >>> 37) &&& 0x1 ∧
    (DataSource.mk v).snoopx = (v >>> 38) &&& 0x3 ∧
    (DataSource.mk v).blk = (v >>> 40) &&& 0x7 ∧
    (DataSource.mk v).hops = (v >>> 43) &&& 0x7 := by
  have _ := hv
  refine ⟨?_, ?_, ?_, ?_, ?_, ?_, ?_, ?_, ?_, ?_⟩ <;>
    simp only [DataSource.op, DataSource.lvl, DataSource.snoop, DataSource.lock,
      DataSource.tlb, DataSource.lvl_num, DataSource.remote, DataSource.snoopx,
      DataSource.blk, DataSource.hops, readMember_eq_shift_mask] <;> rfl

/-- C1 at the descriptor 0xfffff9df051e7f20. -/
theorem C1_accessor_bit_ranges_witness :
    (0xfffff9df051e7f20 : Nat) < 2 ^ 64 ∧
    (DataSource.mk 0xfffff9df051e7f20).op = 0xfffff9df051e7f20 &&& 0x1F ∧
    (DataSource.mk 0xfffff9df051e7f20).lvl = (0xfffff9df051e7f20 >>> 5) &&& 0x3FFF ∧
    (DataSource.mk 0xfffff9df051e7f20).snoop = (0xfffff9df051e7f20 >>> 19) &&& 0x1F ∧
    (DataSource.mk 0xfffff9df051e7f20).lock = (0xfffff9df051e7f20 >>> 24) &&& 0x3 ∧
    (DataSource.mk 0xfffff9df051e7f20).tlb = (0xfffff9df051e7f20 >>> 26) &&& 0x7F ∧
    (DataSource.mk 0xfffff9df051e7f20).lvl_num = (0xfffff9df051e7f20 >>> 33) &&& 0xF ∧
    (DataSource.mk 0xfffff9df051e7f20).remote = (0xfffff9df051e7f20 >>> 37) &&& 0x1 ∧
    (DataSource.mk 0xfffff9df051e7f20).snoopx = (0xfffff9df051e7f20 >>> 38) &&& 0x3 ∧
    (DataSource.mk 0xfffff9df051e7f20).blk = (0xfffff9df051e7f20 >>> 40) &&& 0x7 ∧
    (DataSource.mk 0xfffff9df051e7f20).hops = (0xfffff9df051e7f20 >>> 43) &&& 0x7 :=
  ⟨by decide, C1_accessor_bit_ranges 0xfffff9df051e7f20 (by decide)⟩

/-! ## The predicates on a concrete encoding -/

/-- C2: every 64-bit descriptor that encodes "L2 hit, load, TLB hit, 1 hop"
(op = LOAD, lvl = HIT|L2, tlb = HIT, lvl_num = L2, hops = HOPS_1, and snoop, lock,
remote, snoopx, blk all zero) satisfies is_load, is_mem_l2, is_tlb_hit,
is_mem_hops1 and is_mem_hit, and makes each of the other 33 predicates false. -/
theorem C2_l2_hit_load_truth_table (v : Nat) (hv : v < 2 ^ 64)
    (hop : (DataSource.mk v).op = PERF_MEM_OP_LOAD)
    (hlvl : (DataSource.mk v).lvl = PERF_MEM_LVL_HIT ||| PERF_MEM_LVL_L2)
    (htlb : (DataSource.mk v).tlb = PERF_MEM_TLB_HIT)
    (hnum : (DataSource.mk v).lvl_num = PERF_MEM_LVLNUM_L2)
    (hhops : (DataSource.mk v).hops = PERF_MEM_HOPS_1)
    (hsnoop : (DataSource.mk v).snoop = 0)
    (hlock : (DataSource.mk v).lock = 0)
    (hremote : (DataSource.mk v).remote = 0)
    (hsnoopx : (DataSource.mk v).snoopx = 0)
    (hblk : (DataSource.mk v).blk = 0) :
    (DataSource.mk v).is_load = true ∧
    (DataSource.mk v).is_mem_l2 = true ∧
    (DataSource.mk v).is_tlb_hit = true ∧
    (DataSource.mk v).is_mem_hops1 = true ∧
    (DataSource.mk v).is_mem_hit = true ∧
    (DataSource.mk v).is_store = false ∧
    (DataSource.mk v).is_prefetch = false ∧
    (DataSource.mk v).is_exec = false ∧
    (DataSource.mk v).is_na = false ∧
    (DataSource.mk v).is_mem_miss = false ∧
    (DataSource.mk v).is_mem_l1 = false ∧
    (DataSource.mk v).is_mem_lfb = false ∧
    (DataSource.mk v).is_mem_l3 = false ∧
    (DataSource.mk v).is_mem_l4 = false ∧
    (DataSource.mk v).is_mem_ram = false ∧
    (DataSource.mk v).is_mem_local_ram = false ∧
    (DataSource.mk v).is_mem_remote_ram = false ∧
    (DataSource.mk v).is_mem_hops0 = false ∧
    (DataSource.mk v).is_mem_hops2 = false ∧
    (DataSource.mk v).is_mem_hops3 = false ∧
    (DataSource.mk v).is_mem_remote_ram1 = false ∧
    (DataSource.mk v).is_mem_remote_ram2 = false ∧
    (DataSource.mk v).is_mem_remote_ram3 = false ∧
    (DataSource.mk v).is_mem_remote_cce1 = false ∧
    (DataSource.mk v).is_mem_remote_cce2 = false ∧
    (DataSource.mk v).is_pmem = false ∧
    (DataSource.mk v).is_cxl = false ∧
    (DataSource.mk v).is_io = false ∧
    (DataSource.mk v).is_tlb_miss = false ∧
    (DataSource.mk v).is_tlb_l1 = false ∧
    (DataSource.mk v).is_tlb_l2 = false ∧
    (DataSource.mk v).is_tlb_walk = false ∧
    (DataSource.mk v).is_locked = false ∧
    (DataSource.mk v).is_data_blocked = false ∧
    (DataSource.mk v).is_address_blocked = false ∧
    (DataSource.mk v).is_snoop_hit = false ∧
    (DataSource.mk v).is_snoop_miss = false ∧
    (DataSource.mk v).is_snoop_hit_modified = false := by
  have _ := hv
  have _ := hsnoopx
  simp only [DataSource.is_load, DataSource.is_mem_l2, DataSource.is_tlb_hit, DataSource.is_mem_hops1, DataSource.is_mem_hit, DataSource.is_store, DataSource.is_prefetch, DataSource.is_exec, DataSource.is_na, DataSource.is_mem_miss, DataSource.is_mem_l1, DataSource.is_mem_lfb, DataSource.is_mem_l3, DataSource.is_mem_l4, DataSource.is_mem_ram, DataSource.is_mem_local_ram, DataSource.is_mem_remote_ram, DataSource.is_mem_hops0, DataSource.is_mem_hops2, DataSource.is_mem_hops3, DataSource.is_mem_remote_ram1, DataSource.is_mem_remote_ram2, DataSource.is_mem_remote_ram3, DataSource.is_mem_remote_cce1, DataSource.is_mem_remote_cce2, DataSource.is_pmem, DataSource.is_cxl, DataSource.is_io, DataSource.is_tlb_miss, DataSource.is_tlb_l1, DataSource.is_tlb_l2, DataSource.is_tlb_walk, DataSource.is_locked, DataSource.is_data_blocked, DataSource.is_address_blocked, DataSource.is_snoop_hit, DataSource.is_snoop_miss, DataSource.is_snoop_hit_modified,
    hop, hlvl, htlb, hnum, hhops, hsnoop, hlock, hremote, hblk]
  decide

/-- C2 at the descriptor 0x0000100408000442, whose sub-fields are exactly those of
the encoding: the five expected predicates hold there. -/
theorem C2_l2_hit_load_witness :
    (0x0000100408000442 : Nat) < 2 ^ 64 ∧
    (DataSource.mk 0x0000100408000442).is_load = true ∧
    (DataSource.mk 0x0000100408000442).is_mem_l2 = true ∧
    (DataSource.mk 0x0000100408000442).is_tlb_hit = true ∧
    (DataSource.mk 0x0000100408000442).is_mem_hops1 = true ∧
    (DataSource.mk 0x0000100408000442).is_mem_hit = true ∧
    (DataSource.mk 0x0000100408000442).is_store = false :=
  have h := C2_l2_hit_load_truth_table 0x0000100408000442 (by decide) (by decide) (by decide)
    (by decide) (by decide) (by decide) (by decide) (by decide) (by decide) (by decide) (by decide)
  ⟨by decide, h.1, h.2.1, h.2.2.1, h.2.2.2.1, h.2.2.2.2.1, h.2.2.2.2.2.1⟩

/-! ## Patterns that match no tested constant -/

/-- C3, refuted as stated: in the descriptor 0x1A00000000 (lvl_num = RAM, every
other sub-field zero) the remote sub-field is 0, which differs from the only
constant it is tested against (PERF_MEM_REMOTE_REMOTE = 1), yet is_mem_local_ram,
which reads the remote sub-field, returns true. -/
theorem C3_counterexample_local_ram :
    (0x1A00000000 : Nat) < 2 ^ 64 ∧
    (DataSource.mk 0x1A00000000).remote ≠ PERF_MEM_REMOTE_REMOTE ∧
    (DataSource.mk 0x1A00000000).is_mem_local_ram = true := by
  decide

/-- C3, as amended: for every 64-bit descriptor and every sub-field whose value
matches none of the constants it is tested against (flag sub-fields op, lvl,
snoop, tlb, lock, blk: no tested flag bit set; enumerated sub-fields lvl_num,
remote, hops: different from every tested constant), every predicate reading that
sub-field is false, except is_mem_local_ram in the case of the remote sub-field:
it tests remote != PERF_MEM_REMOTE_REMOTE, so there it equals is_mem_ram. -/
theorem C3_unmatched_patterns_yield_false (d : DataSource) (hd : d._data_source < 2 ^ 64) :
    (d.op &&& PERF_MEM_OP_LOAD = 0 →
      d.op &&& PERF_MEM_OP_STORE = 0 →
      d.op &&& PERF_MEM_OP_PFETCH = 0 →
      d.op &&& PERF_MEM_OP_EXEC = 0 →
      d.op &&& PERF_MEM_OP_NA = 0 →
        d.is_load = false ∧
        d.is_store = false ∧
        d.is_prefetch = false ∧
        d.is_exec = false ∧
        d.is_na = false) ∧
    (d.lvl &&& PERF_MEM_LVL_HIT = 0 →
      d.lvl &&& PERF_MEM_LVL_MISS = 0 →
      d.lvl &&& PERF_MEM_LVL_REM_CCE1 = 0 →
      d.lvl &&& PERF_MEM_LVL_REM_CCE2 = 0 →
        d.is_mem_hit = false ∧
        d.is_mem_miss = false ∧
        d.is_mem_remote_cce1 = false ∧
        d.is_mem_remote_cce2 = false) ∧
    (d.lvl_num ≠ PERF_MEM_LVLNUM_L1 →
      d.lvl_num ≠ PERF_MEM_LVLNUM_LFB →
      d.lvl_num ≠ PERF_MEM_LVLNUM_L2 →
      d.lvl_num ≠ PERF_MEM_LVLNUM_L3 →
      d.lvl_num ≠ PERF_MEM_LVLNUM_L4 →
      d.lvl_num ≠ PERF_MEM_LVLNUM_RAM →
      d.lvl_num ≠ PERF_MEM_LVLNUM_PMEM →
      d.lvl_num ≠ PERF_MEM_LVLNUM_CXL →
      d.lvl_num ≠ PERF_MEM_LVLNUM_IO →
        d.is_mem_l1 = false ∧
        d.is_mem_lfb = false ∧
        d.is_mem_l2 = false ∧
        d.is_mem_l3 = false ∧
        d.is_mem_l4 = false ∧
        d.is_mem_ram = false ∧
        d.is_mem_local_ram = false ∧
        d.is_mem_remote_ram = false ∧
        d.is_mem_remote_ram1 = false ∧
        d.is_mem_remote_ram2 = false ∧
        d.is_mem_remote_ram3 = false ∧
        d.is_pmem = false ∧
        d.is_cxl = false ∧
        d.is_io = false) ∧
    (d.remote ≠ PERF_MEM_REMOTE_REMOTE →
        d.is_mem_remote_ram = false ∧
        d.is_mem_remote_ram1 = false ∧
        d.is_mem_remote_ram2 = false ∧
        d.is_mem_remote_ram3 = false ∧
        d.is_mem_local_ram = d.is_mem_ram) ∧
    (d.hops ≠ PERF_MEM_HOPS_0 →
      d.hops ≠ PERF_MEM_HOPS_1 →
      d.hops ≠ PERF_MEM_HOPS_2 →
      d.hops ≠ PERF_MEM_HOPS_3 →
        d.is_mem_hops0 = false ∧
        d.is_mem_hops1 = false ∧
        d.is_mem_hops2 = false ∧
        d.is_mem_hops3 = false ∧
        d.is_mem_remote_ram1 = false ∧
        d.is_mem_remote_ram2 = false ∧
        d.is_mem_remote_ram3 = false) ∧
    (d.snoop &&& PERF_MEM_SNOOP_HIT = 0 →
      d.snoop &&& PERF_MEM_SNOOP_MISS = 0 →
      d.snoop &&& PERF_MEM_SNOOP_HITM = 0 →
        d.is_snoop_hit = false ∧
        d.is_snoop_miss = false ∧
        d.is_snoop_hit_modified = false) ∧
    (d.tlb &&& PERF_MEM_TLB_HIT = 0 →
      d.tlb &&& PERF_MEM_TLB_MISS = 0 →
      d.tlb &&& PERF_MEM_TLB_L1 = 0 →
      d.tlb &&& PERF_MEM_TLB_L2 = 0 →
      d.tlb &&& PERF_MEM_TLB_WK = 0 →
        d.is_tlb_hit = false ∧
        d.is_tlb_miss = false ∧
        d.is_tlb_l1 = false ∧
        d.is_tlb_l2 = false ∧
        d.is_tlb_walk = false) ∧
    (d.lock &&& PERF_MEM_LOCK_LOCKED = 0 →
        d.is_locked = false) ∧
    (d.blk &&& PERF_MEM_BLK_DATA = 0 →
      d.blk &&& PERF_MEM_BLK_ADDR = 0 →
        d.is_data_blocked = false ∧
        d.is_address_blocked = false) := by
  have _ := hd
  refine ⟨?_, ?_, ?_, ?_, ?_, ?_, ?_, ?_, ?_⟩ <;> intros <;>
    simp_all [DataSource.is_load, DataSource.is_store, DataSource.is_prefetch, DataSource.is_exec, DataSource.is_na, DataSource.is_mem_hit, DataSource.is_mem_miss, DataSource.is_mem_l1, DataSource.is_mem_lfb, DataSource.is_mem_l2, DataSource.is_mem_l3, DataSource.is_mem_l4, DataSource.is_mem_ram, DataSource.is_mem_local_ram, DataSource.is_mem_remote_ram, DataSource.is_mem_hops0, DataSource.is_mem_hops1, DataSource.is_mem_hops2, DataSource.is_mem_hops3, DataSource.is_mem_remote_ram1, DataSource.is_mem_remote_ram2, DataSource.is_mem_remote_ram3, DataSource.is_mem_remote_cce1, DataSource.is_mem_remote_cce2, DataSource.is_pmem, DataSource.is_cxl, DataSource.is_io, DataSource.is_tlb_hit, DataSource.is_tlb_miss, DataSource.is_tlb_l1, DataSource.is_tlb_l2, DataSource.is_tlb_walk, DataSource.is_locked, DataSource.is_data_blocked, DataSource.is_address_blocked, DataSource.is_snoop_hit, DataSource.is_snoop_miss, DataSource.is_snoop_hit_modified]

/-- C3 (amended) at the descriptor 0xfffff9df051e7f20, in which every sub-field
holds a pattern that matches no tested constant. -/
theorem C3_unmatched_patterns_witness :
    (0xfffff9df051e7f20 : Nat) < 2 ^ 64 ∧
    ((DataSource.mk 0xfffff9df051e7f20).is_load = false ∧ (DataSource.mk 0xfffff9df051e7f20).is_store = false ∧ (DataSource.mk 0xfffff9df051e7f20).is_prefetch = false ∧ (DataSource.mk 0xfffff9df051e7f20).is_exec = false ∧ (DataSource.mk 0xfffff9df051e7f20).is_na = false) ∧
    ((DataSource.mk 0xfffff9df051e7f20).is_mem_hit = false ∧ (DataSource.mk 0xfffff9df051e7f20).is_mem_miss = false ∧ (DataSource.mk 0xfffff9df051e7f20).is_mem_remote_cce1 = false ∧ (DataSource.mk 0xfffff9df051e7f20).is_mem_remote_cce2 = false) ∧
    ((DataSource.mk 0xfffff9df051e7f20).is_mem_l1 = false ∧ (DataSource.mk 0xfffff9df051e7f20).is_mem_lfb = false ∧ (DataSource.mk 0xfffff9df051e7f20).is_mem_l2 = false ∧ (DataSource.mk 0xfffff9df051e7f20).is_mem_l3 = false ∧ (DataSource.mk 0xfffff9df051e7f20).is_mem_l4 = false ∧ (DataSource.mk 0xfffff9df051e7f20).is_mem_ram = false ∧ (DataSource.mk 0xfffff9df051e7f20).is_mem_local_ram = false ∧ (DataSource.mk 0xfffff9df051e7f20).is_mem_remote_ram = false ∧ (DataSource.mk 0xfffff9df051e7f20).is_mem_remote_ram1 = false ∧ (DataSource.mk 0xfffff9df051e7f20).is_mem_remote_ram2 = false ∧ (DataSource.mk 0xfffff9df051e7f20).is_mem_remote_ram3 = false ∧ (DataSource.mk 0xfffff9df051e7f20).is_pmem = false ∧ (DataSource.mk 0xfffff9df051e7f20).is_cxl = false ∧ (DataSource.mk 0xfffff9df051e7f20).is_io = false) ∧
    ((DataSource.mk 0xfffff9df051e7f20).is_mem_remote_ram = false ∧ (DataSource.mk 0xfffff9df051e7f20).is_mem_remote_ram1 = false ∧ (DataSource.mk 0xfffff9df051e7f20).is_mem_remote_ram2 = false ∧ (DataSource.mk 0xfffff9df051e7f20).is_mem_remote_ram3 = false ∧ (DataSource.mk 0xfffff9df051e7f20).is_mem_local_ram = (DataSource.mk 0xfffff9df051e7f20).is_mem_ram) ∧
    ((DataSource.mk 0xfffff9df051e7f20).is_mem_hops0 = false ∧ (DataSource.mk 0xfffff9df051e7f20).is_mem_hops1 = false ∧ (DataSource.mk 0xfffff9df051e7f20).is_mem_hops2 = false ∧ (DataSource.mk 0xfffff9df051e7f20).is_mem_hops3 = false ∧ (DataSource.mk 0xfffff9df051e7f20).is_mem_remote_ram1 = false ∧ (DataSource.mk 0xfffff9df051e7f20).is_mem_remote_ram2 = false ∧ (DataSource.mk 0xfffff9df051e7f20).is_mem_remote_ram3 = false) ∧
    ((DataSource.mk 0xfffff9df051e7f20).is_snoop_hit = false ∧ (DataSource.mk 0xfffff9df051e7f20).is_snoop_miss = false ∧ (DataSource.mk 0xfffff9df051e7f20).is_snoop_hit_modified = false) ∧
    ((DataSource.mk 0xfffff9df051e7f20).is_tlb_hit = false ∧ (DataSource.mk 0xfffff9df051e7f20).is_tlb_miss = false ∧ (DataSource.mk 0xfffff9df051e7f20).is_tlb_l1 = false ∧ (DataSource.mk 0xfffff9df051e7f20).is_tlb_l2 = false ∧ (DataSource.mk 0xfffff9df051e7f20).is_tlb_walk = false) ∧
    ((DataSource.mk 0xfffff9df051e7f20).is_locked = false) ∧
    ((DataSource.mk 0xfffff9df051e7f20).is_data_blocked = false ∧ (DataSource.mk 0xfffff9df051e7f20).is_address_blocked = false) :=
  have h := C3_unmatched_patterns_yield_false (DataSource.mk 0xfffff9df051e7f20) (by decide)
  ⟨by decide,
    h.1 (by decide) (by decide) (by decide) (by decide) (by decide),
    h.2.1 (by decide) (by decide) (by decide) (by decide),
    h.2.2.1 (by decide) (by decide) (by decide) (by decide) (by decide) (by decide) (by decide) (by decide) (by decide),
    h.2.2.2.1 (by decide),
    h.2.2.2.2.1 (by decide) (by decide) (by decide) (by decide),
    h.2.2.2.2.2.1 (by decide) (by decide) (by decide),
    h.2.2.2.2.2.2.1 (by decide) (by decide) (by decide) (by decide) (by decide),
    h.2.2.2.2.2.2.2.1 (by decide),
    h.2.2.2.2.2.2.2.2 (by decide) (by decide)⟩

/-! ## Composite predicates -/

/-- C4: for every 64-bit descriptor, is_mem_remote_ramN = is_mem_remote_ram &&
is_mem_hopsN for N = 1, 2, 3, is_mem_remote_ram = is_mem_ram && (remote ==
PERF_MEM_REMOTE_REMOTE) with PERF_MEM_REMOTE_REMOTE = 1, and is_mem_local_ram =
is_mem_ram && (remote != PERF_MEM_REMOTE_REMOTE). -/
theorem C4_composites_are_conjunctions (d : DataSource) (hd : d._data_source < 2 ^ 64) :
    d.is_mem_remote_ram1 = (d.is_mem_remote_ram && d.is_mem_hops1) ∧
    d.is_mem_remote_ram2 = (d.is_mem_remote_ram && d.is_mem_hops2) ∧
    d.is_mem_remote_ram3 = (d.is_mem_remote_ram && d.is_mem_hops3) ∧
    d.is_mem_remote_ram = (d.is_mem_ram && (d.remote == PERF_MEM_REMOTE_REMOTE)) ∧
    d.is_mem_local_ram = (d.is_mem_ram && (d.remote != PERF_MEM_REMOTE_REMOTE)) ∧
    PERF_MEM_REMOTE_REMOTE = 1 := by
  have _ := hd
  exact ⟨rfl, rfl, rfl, rfl, rfl, rfl⟩

/-- C4 at the descriptor 0x183A00000000 (lvl_num = RAM, remote = 1, hops = HOPS_2):
is_mem_remote_ram2 is the conjunction of its two parts, and is true. -/
theorem C4_composites_witness :
    (0x183A00000000 : Nat) < 2 ^ 64 ∧
    (DataSource.mk 0x183A00000000).is_mem_remote_ram2 =
      ((DataSource.mk 0x183A00000000).is_mem_remote_ram &&
        (DataSource.mk 0x183A00000000).is_mem_hops2) ∧
    (DataSource.mk 0x183A00000000).is_mem_remote_ram2 = true :=
  ⟨by decide,
    (C4_composites_are_conjunctions (DataSource.mk 0x183A00000000) (by decide)).2.1,
    by decide⟩

/-! ## A fresh `Sample` -/

/-- C5: for every mode `m`, a freshly constructed `Sample(m)` has `mode() == m`
and each of its 21 optional getters reports absent. -/
theorem C5_fresh_sample_has_only_mode (CounterResult : Type) (m : Mode) :
    (Sample.new m : Sample CounterResult).mode = m ∧
    (Sample.new m : Sample CounterResult).sample_id = none ∧
    (Sample.new m : Sample CounterResult).instruction_pointer = none ∧
    (Sample.new m : Sample CounterResult).process_id = none ∧
    (Sample.new m : Sample CounterResult).thread_id = none ∧
    (Sample.new m : Sample CounterResult).time = none ∧
    (Sample.new m : Sample CounterResult).logical_memory_address = none ∧
    (Sample.new m : Sample CounterResult).physical_memory_address = none ∧
    (Sample.new m : Sample CounterResult).id = none ∧
    (Sample.new m : Sample CounterResult).cpu_id = none ∧
    (Sample.new m : Sample CounterResult).period = none ∧
    (Sample.new m : Sample CounterResult).counter_result = none ∧
    (Sample.new m : Sample CounterResult).data_src = none ∧
    (Sample.new m : Sample CounterResult).weight = none ∧
    (Sample.new m : Sample CounterResult).branches = none ∧
    (Sample.new m : Sample CounterResult).user_registers_abi = none ∧
    (Sample.new m : Sample CounterResult).user_registers = none ∧
    (Sample.new m : Sample CounterResult).kernel_registers_abi = none ∧
    (Sample.new m : Sample CounterResult).kernel_registers = none ∧
    (Sample.new m : Sample CounterResult).callchain = none ∧
    (Sample.new m : Sample CounterResult).data_page_size = none ∧
    (Sample.new m : Sample CounterResult).code_page_size = none :=
  ⟨rfl, rfl, rfl, rfl, rfl, rfl, rfl, rfl, rfl, rfl, rfl, rfl, rfl, rfl, rfl, rfl, rfl, rfl, rfl, rfl, rfl, rfl⟩

/-! ## Setter sequences -/

/-- Folding a step function over a list of calls: when each call either
overwrites what `get` reads with its argument (`arg c = some a`) or leaves it
alone (`arg c = none`), the final reading is the argument of the last overwriting
call, or the initial reading if there is none. -/
theorem foldl_reads_last {σ κ α : Type} (step : σ → κ → σ) (get : σ → Option α)
    (arg : κ → Option α) (hstep : ∀ s c, get (step s c) = (arg c).or (get s))
    (s : σ) (cs : List κ) :
    get (cs.foldl step s) = ((cs.filterMap arg).getLast?).or (get s) := by
  induction cs generalizing s with
  | nil => simp
  | cons c cs ih =>
    rw [List.foldl_cons, ih, hstep]
    cases hc : arg c with
    | none => simp [List.filterMap_cons, hc]
    | some a =>
      simp only [List.filterMap_cons, hc, List.getLast?_cons]
      cases (cs.filterMap arg).getLast? <;> simp

/-- The reading of `get` after `Sample.run m cs`, for a getter that starts absent
and that every call either overwrites with its argument or leaves alone. -/
theorem run_reads_last {CounterResult α : Type} (get : Sample CounterResult → Option α)
    (arg : Setter CounterResult → Option α)
    (hstep : ∀ s c, get (Sample.call s c) = (arg c).or (get s))
    (hnew : ∀ m, get (Sample.new m) = none) (m : Mode) (cs : List (Setter CounterResult)) :
    get (Sample.run m cs) = (cs.filterMap arg).getLast? := by
  unfold Sample.run
  rw [foldl_reads_last Sample.call get arg hstep, hnew, Option.or_none]

/-- C6: after a fresh `Sample(m)` and any finite sequence `cs` of setter calls,
each optional getter returns the last element of the list of arguments that `cs`
passes to the setter of that field: absent exactly when `cs` contains no call of
that setter, and otherwise the argument of the last such call (the setter of
`time()` is `timestamp(..)`). -/
theorem C6_getter_reads_last_setter_call (CounterResult : Type) (m : Mode)
    (cs : List (Setter CounterResult)) :
    (Sample.run m cs).sample_id = (cs.filterMap Setter.sample_id_arg).getLast? ∧
    (Sample.run m cs).instruction_pointer = (cs.filterMap Setter.instruction_pointer_arg).getLast? ∧
    (Sample.run m cs).process_id = (cs.filterMap Setter.process_id_arg).getLast? ∧
    (Sample.run m cs).thread_id = (cs.filterMap Setter.thread_id_arg).getLast? ∧
    (Sample.run m cs).time = (cs.filterMap Setter.time_arg).getLast? ∧
    (Sample.run m cs).logical_memory_address = (cs.filterMap Setter.logical_memory_address_arg).getLast? ∧
    (Sample.run m cs).physical_memory_address = (cs.filterMap Setter.physical_memory_address_arg).getLast? ∧
    (Sample.run m cs).id = (cs.filterMap Setter.id_arg).getLast? ∧
    (Sample.run m cs).cpu_id = (cs.filterMap Setter.cpu_id_arg).getLast? ∧
    (Sample.run m cs).period = (cs.filterMap Setter.period_arg).getLast? ∧
    (Sample.run m cs).counter_result = (cs.filterMap Setter.counter_result_arg).getLast? ∧
    (Sample.run m cs).data_src = (cs.filterMap Setter.data_src_arg).getLast? ∧
    (Sample.run m cs).weight = (cs.filterMap Setter.weight_arg).getLast? ∧
    (Sample.run m cs).branches = (cs.filterMap Setter.branches_arg).getLast? ∧
    (Sample.run m cs).user_registers_abi = (cs.filterMap Setter.user_registers_abi_arg).getLast? ∧
    (Sample.run m cs).user_registers = (cs.filterMap Setter.user_registers_arg).getLast? ∧
    (Sample.run m cs).kernel_registers_abi = (cs.filterMap Setter.kernel_registers_abi_arg).getLast? ∧
    (Sample.run m cs).kernel_registers = (cs.filterMap Setter.kernel_registers_arg).getLast? ∧
    (Sample.run m cs).callchain = (cs.filterMap Setter.callchain_arg).getLast? ∧
    (Sample.run m cs).data_page_size = (cs.filterMap Setter.data_page_size_arg).getLast? ∧
    (Sample.run m cs).code_page_size = (cs.filterMap Setter.code_page_size_arg).getLast? := by
  refine ⟨?_, ?_, ?_, ?_, ?_, ?_, ?_, ?_, ?_, ?_, ?_, ?_, ?_, ?_, ?_, ?_, ?_, ?_, ?_, ?_, ?_⟩
  · exact run_reads_last Sample.sample_id Setter.sample_id_arg
      (fun s c => by cases c <;> rfl) (fun _ => rfl) m cs
  · exact run_reads_last Sample.instruction_pointer Setter.instruction_pointer_arg
      (fun s c => by cases c <;> rfl) (fun _ => rfl) m cs
  · exact run_reads_last Sample.process_id Setter.process_id_arg
      (fun s c => by cases c <;> rfl) (fun _ => rfl) m cs
  · exact run_reads_last Sample.thread_id Setter.thread_id_arg
      (fun s c => by cases c <;> rfl) (fun _ => rfl) m cs
  · exact run_reads_last Sample.time Setter.time_arg
      (fun s c => by cases c <;> rfl) (fun _ => rfl) m cs
  · exact run_reads_last Sample.logical_memory_address Setter.logical_memory_address_arg
      (fun s c => by cases c <;> rfl) (fun _ => rfl) m cs
  · exact run_reads_last Sample.physical_memory_address Setter.physical_memory_address_arg
      (fun s c => by cases c <;> rfl) (fun _ => rfl) m cs
  · exact run_reads_last Sample.id Setter.id_arg
      (fun s c => by cases c <;> rfl) (fun _ => rfl) m cs
  · exact run_reads_last Sample.cpu_id Setter.cpu_id_arg
      (fun s c => by cases c <;> rfl) (fun _ => rfl) m cs
  · exact run_reads_last Sample.period Setter.period_arg
      (fun s c => by cases c <;> rfl) (fun _ => rfl) m cs
  · exact run_reads_last Sample.counter_result Setter.counter_result_arg
      (fun s c => by cases c <;> rfl) (fun _ => rfl) m cs
  · exact run_reads_last Sample.data_src Setter.data_src_arg
      (fun s c => by cases c <;> rfl) (fun _ => rfl) m cs
  · exact run_reads_last Sample.weight Setter.weight_arg
      (fun s c => by cases c <;> rfl) (fun _ => rfl) m cs
  · exact run_reads_last Sample.branches Setter.branches_arg
      (fun s c => by cases c <;> rfl) (fun _ => rfl) m cs
  · exact run_reads_last Sample.user_registers_abi Setter.user_registers_abi_arg
      (fun s c => by cases c <;> rfl) (fun _ => rfl) m cs
  · exact run_reads_last Sample.user_registers Setter.user_registers_arg
      (fun s c => by cases c <;> rfl) (fun _ => rfl) m cs
  · exact run_reads_last Sample.kernel_registers_abi Setter.kernel_registers_abi_arg
      (fun s c => by cases c <;> rfl) (fun _ => rfl) m cs
  · exact run_reads_last Sample.kernel_registers Setter.kernel_registers_arg
      (fun s c => by cases c <;> rfl) (fun _ => rfl) m cs
  · exact run_reads_last Sample.callchain Setter.callchain_arg
      (fun s c => by cases c <;> rfl) (fun _ => rfl) m cs
  · exact run_reads_last Sample.data_page_size Setter.data_page_size_arg
      (fun s c => by cases c <;> rfl) (fun _ => rfl) m cs
  · exact run_reads_last Sample.code_page_size Setter.code_page_size_arg
      (fun s c => by cases c <;> rfl) (fun _ => rfl) m cs

/-! ## Presence is kept by setters, not by the mutable accessors -/

/-- A setter call keeps every present field present. -/
theorem present_call {CounterResult : Type} (s : Sample CounterResult)
    (c : Setter CounterResult) (f : Field) (hf : s.present f = true) :
    (s.call c).present f = true := by
  cases f <;> cases c <;> first | exact hf | rfl

/-- C7, refuted as stated: a sample whose `branches` field was set to the empty
list has the field present; the mutable accessor `branches()` returns a reference
to the optional itself, and after the caller resets the optional through it (the
update that yields `nullopt`) the field is absent. -/
theorem C7_counterexample_reset_through_reference :
    ((Sample.new Mode.User : Sample Unit).set_branches []).present Field.branches = true ∧
    (((Sample.new Mode.User : Sample Unit).set_branches []).perform
      (Op.branches (fun _ => none))).present Field.branches = false :=
  ⟨rfl, rfl⟩

/-- C7, as amended: for every sample `s` and every optional field `f` present in
`s`, `f` is still present after any setter call, and after any use of a mutable
accessor (`branches()`, `user_registers()`, `kernel_registers()`, `callchain()`,
with whatever the caller does through the returned reference) whose accessed
field is not `f`. -/
theorem C7_present_fields_stay_present (CounterResult : Type) (s : Sample CounterResult)
    (op : Op CounterResult) (f : Field) (hf : s.present f = true)
    (hop : (∃ c, op = Op.set c) ∨ op.field ≠ f) :
    (s.perform op).present f = true := by
  cases op with
  | set c => exact present_call s c f hf
  | branches upd =>
    rcases hop with ⟨c, hc⟩ | hne
    · cases hc
    · cases f <;> first | exact hf | exact absurd rfl hne
  | user_registers upd =>
    rcases hop with ⟨c, hc⟩ | hne
    · cases hc
    · cases f <;> first | exact hf | exact absurd rfl hne
  | kernel_registers upd =>
    rcases hop with ⟨c, hc⟩ | hne
    · cases hc
    · cases f <;> first | exact hf | exact absurd rfl hne
  | callchain upd =>
    rcases hop with ⟨c, hc⟩ | hne
    · cases hc
    · cases f <;> first | exact hf | exact absurd rfl hne

/-- C7 (amended) on a sample with `time` and `branches` set: resetting `branches`
through its mutable accessor leaves `time` present. -/
theorem C7_present_fields_witness :
    (((Sample.new Mode.User : Sample Unit).set_branches []).set_timestamp 5).present
      Field.time = true ∧
    ((((Sample.new Mode.User : Sample Unit).set_branches []).set_timestamp 5).perform
      (Op.branches (fun _ => none))).present Field.time = true :=
  ⟨rfl, C7_present_fields_stay_present Unit
    (((Sample.new Mode.User : Sample Unit).set_branches []).set_timestamp 5)
    (Op.branches (fun _ => none)) Field.time rfl (Or.inr (by decide))⟩

/-! ## Frame of the setters -/

/-- A sequence of setter calls leaves the mode alone. -/
theorem foldl_call_mode {CounterResult : Type} (cs : List (Setter CounterResult))
    (s : Sample CounterResult) : (cs.foldl Sample.call s).mode = s.mode := by
  induction cs generalizing s with
  | nil => rfl
  | cons c cs ih =>
    rw [List.foldl_cons, ih]
    cases c <;> rfl

/-- C8: a setter call changes only its own field: for every sample `s` and setter
call `c`, `mode()` and the getter of every optional field other than the one `c`
sets return the same result before and after the call; consequently the mode
after any sequence of setter calls on a fresh `Sample(m)` is `m`. -/
theorem C8_setter_changes_only_its_field (CounterResult : Type) (s : Sample CounterResult)
    (c : Setter CounterResult) :
    (s.call c).mode = s.mode ∧
    (c.field ≠ Field.sample_id → (s.call c).sample_id = s.sample_id) ∧
    (c.field ≠ Field.instruction_pointer → (s.call c).instruction_pointer = s.instruction_pointer) ∧
    (c.field ≠ Field.process_id → (s.call c).process_id = s.process_id) ∧
    (c.field ≠ Field.thread_id → (s.call c).thread_id = s.thread_id) ∧
    (c.field ≠ Field.time → (s.call c).time = s.time) ∧
    (c.field ≠ Field.logical_memory_address → (s.call c).logical_memory_address = s.logical_memory_address) ∧
    (c.field ≠ Field.physical_memory_address → (s.call c).physical_memory_address = s.physical_memory_address) ∧
    (c.field ≠ Field.id → (s.call c).id = s.id) ∧
    (c.field ≠ Field.cpu_id → (s.call c).cpu_id = s.cpu_id) ∧
    (c.field ≠ Field.period → (s.call c).period = s.period) ∧
    (c.field ≠ Field.counter_result → (s.call c).counter_result = s.counter_result) ∧
    (c.field ≠ Field.data_src → (s.call c).data_src = s.data_src) ∧
    (c.field ≠ Field.weight → (s.call c).weight = s.weight) ∧
    (c.field ≠ Field.branches → (s.call c).branches = s.branches) ∧
    (c.field ≠ Field.user_registers_abi → (s.call c).user_registers_abi = s.user_registers_abi) ∧
    (c.field ≠ Field.user_registers → (s.call c).user_registers = s.user_registers) ∧
    (c.field ≠ Field.kernel_registers_abi → (s.call c).kernel_registers_abi = s.kernel_registers_abi) ∧
    (c.field ≠ Field.kernel_registers → (s.call c).kernel_registers = s.kernel_registers) ∧
    (c.field ≠ Field.callchain → (s.call c).callchain = s.callchain) ∧
    (c.field ≠ Field.data_page_size → (s.call c).data_page_size = s.data_page_size) ∧
    (c.field ≠ Field.code_page_size → (s.call c).code_page_size = s.code_page_size) ∧
    (∀ (m : Mode) (cs : List (Setter CounterResult)), (Sample.run m cs).mode = m) := by
  refine ⟨?_, ?_, ?_, ?_, ?_, ?_, ?_, ?_, ?_, ?_, ?_, ?_, ?_, ?_, ?_, ?_, ?_, ?_, ?_, ?_, ?_, ?_, ?_⟩
  · cases c <;> rfl
  all_goals first
    | (intro h; cases c <;> first | rfl | exact absurd rfl h)
    | (intro m cs; exact foldl_call_mode cs (Sample.new m))

/-- C8 on a sample with `process_id` and `user_registers_abi` set: the calls
`thread_id(9)` and `user_registers(..)` leave them, and the mode, as they were. -/
theorem C8_setter_frame_witness :
    ((((Sample.new Mode.Kernel : Sample Unit).set_process_id 7).set_user_registers_abi 2).call
      (Setter.thread_id 9)).process_id = some 7 ∧
    ((((Sample.new Mode.Kernel : Sample Unit).set_process_id 7).set_user_registers_abi 2).call
      (Setter.user_registers [1, 2])).user_registers_abi = some 2 ∧
    ((((Sample.new Mode.Kernel : Sample Unit).set_process_id 7).set_user_registers_abi 2).call
      (Setter.thread_id 9)).mode = Mode.Kernel :=
  ⟨(C8_setter_changes_only_its_field Unit
      (((Sample.new Mode.Kernel : Sample Unit).set_process_id 7).set_user_registers_abi 2)
      (Setter.thread_id 9)).2.2.2.1 (by decide),
    (C8_setter_changes_only_its_field Unit
      (((Sample.new Mode.Kernel : Sample Unit).set_process_id 7).set_user_registers_abi 2)
      (Setter.user_registers [1, 2])).2.2.2.2.2.2.2.2.2.2.2.2.2.2.2.1 (by decide),
    (C8_setter_changes_only_its_field Unit
      (((Sample.new Mode.Kernel : Sample Unit).set_process_id 7).set_user_registers_abi 2)
      (Setter.thread_id 9)).1⟩

/-! ## `Weight` -/

/-- C9: for every 32-bit latency `l`, `Weight(l)` has `latency() == l`,
`var2() == 0` and `var3() == 0`, and so agrees with `Weight(l, 0, 0)` on all three
accessors. -/
theorem C9_single_weight_defaults_to_zero (l : Nat) (hl : l < 2 ^ 32) :
    (Weight.single l).latency = l ∧
    (Weight.single l).var2 = 0 ∧
    (Weight.single l).var3 = 0 ∧
    (Weight.single l).latency = (Weight.triple l 0 0).latency ∧
    (Weight.single l).var2 = (Weight.triple l 0 0).var2 ∧
    (Weight.single l).var3 = (Weight.triple l 0 0).var3 := by
  have _ := hl
  exact ⟨rfl, rfl, rfl, rfl, rfl, rfl⟩

/-- C9 at latency 1234. -/
theorem C9_single_weight_witness :
    (1234 : Nat) < 2 ^ 32 ∧
    (Weight.single 1234).latency = 1234 ∧
    (Weight.single 1234).var2 = 0 ∧
    (Weight.single 1234).var3 = 0 ∧
    (Weight.single 1234).latency = (Weight.triple 1234 0 0).latency ∧
    (Weight.single 1234).var2 = (Weight.triple 1234 0 0).var2 ∧
    (Weight.single 1234).var3 = (Weight.triple 1234 0 0).var3 :=
  ⟨by decide, C9_single_weight_defaults_to_zero 1234 (by decide)⟩

/-- C10: for every 32-bit latency `l` and 16-bit `var2`, `var3`, the weight
`Weight(l, var2, var3)` reads back `latency() == l`, `var2() == var2` and
`var3() == var3`; the 32-bit results of `var2()` and `var3()` are the
zero-extended 16-bit inputs, hence below 65536. -/
theorem C10_triple_weight_reads_back (l var2 var3 : Nat) (hl : l < 2 ^ 32)
    (h2 : var2 < 2 ^ 16) (h3 : var3 < 2 ^ 16) :
    (Weight.triple l var2 var3).latency = l ∧
    (Weight.triple l var2 var3).var2 = var2 ∧
    (Weight.triple l var2 var3).var3 = var3 ∧
    (Weight.triple l var2 var3).var2 < 65536 ∧
    (Weight.triple l var2 var3).var3 < 65536 := by
  have _ := hl
  have e2 : (Weight.triple l var2 var3).var2 = var2 :=
    Nat.mod_eq_of_lt (Nat.lt_of_lt_of_le h2 (by decide))
  have e3 : (Weight.triple l var2 var3).var3 = var3 :=
    Nat.mod_eq_of_lt (Nat.lt_of_lt_of_le h3 (by decide))
  refine ⟨rfl, e2, e3, ?_, ?_⟩
  · rw [e2]; exact h2
  · rw [e3]; exact h3

/-- C10 at the largest arguments: latency 0xFFFFFFFF, var2 = var3 = 0xFFFF. -/
theorem C10_triple_weight_witness :
    (0xFFFFFFFF : Nat) < 2 ^ 32 ∧ (0xFFFF : Nat) < 2 ^ 16 ∧
    (Weight.triple 0xFFFFFFFF 0xFFFF 0xFFFF).latency = 0xFFFFFFFF ∧
    (Weight.triple 0xFFFFFFFF 0xFFFF 0xFFFF).var2 = 0xFFFF ∧
    (Weight.triple 0xFFFFFFFF 0xFFFF 0xFFFF).var3 = 0xFFFF ∧
    (Weight.triple 0xFFFFFFFF 0xFFFF 0xFFFF).var2 < 65536 ∧
    (Weight.triple 0xFFFFFFFF 0xFFFF 0xFFFF).var3 < 65536 :=
  ⟨by decide, by decide,
    C10_triple_weight_reads_back 0xFFFFFFFF 0xFFFF 0xFFFF (by decide) (by decide) (by decide)⟩

/-! ## `Branch` -/

/-- C11: `Branch` is an immutable record: for all constructor arguments (two
64-bit addresses, four flags, a 16-bit cycle count) each of the seven accessors
returns exactly the corresponding argument, none swapped. -/
theorem C11_branch_accessors_return_arguments (ip_from ip_to : Nat)
    (mispredicted predicted in_transaction transaction_abort : Bool) (cycles : Nat)
    (hfrom : ip_from < 2 ^ 64) (hto : ip_to < 2 ^ 64) (hcycles : cycles < 2 ^ 16) :
    (Branch.new ip_from ip_to mispredicted predicted in_transaction transaction_abort
      cycles).instruction_pointer_from = ip_from ∧
    (Branch.new ip_from ip_to mispredicted predicted in_transaction transaction_abort
      cycles).instruction_pointer_to = ip_to ∧
    (Branch.new ip_from ip_to mispredicted predicted in_transaction transaction_abort
      cycles).is_mispredicted = mispredicted ∧
    (Branch.new ip_from ip_to mispredicted predicted in_transaction transaction_abort
      cycles).is_predicted = predicted ∧
    (Branch.new ip_from ip_to mispredicted predicted in_transaction transaction_abort
      cycles).is_in_transaction = in_transaction ∧
    (Branch.new ip_from ip_to mispredicted predicted in_transaction transaction_abort
      cycles).is_transaction_abort = transaction_abort ∧
    (Branch.new ip_from ip_to mispredicted predicted in_transaction transaction_abort
      cycles).cycles = cycles := by
  have _ := hfrom
  have _ := hto
  have _ := hcycles
  exact ⟨rfl, rfl, rfl, rfl, rfl, rfl, rfl⟩

/-- C11 on pairwise distinguishable arguments: addresses 0x401000 and 0x402000,
exactly one flag set, 7 cycles. -/
theorem C11_branch_accessors_witness :
    (0x401000 : Nat) < 2 ^ 64 ∧ (0x402000 : Nat) < 2 ^ 64 ∧ (7 : Nat) < 2 ^ 16 ∧
    (Branch.new 0x401000 0x402000 false true false false 7).instruction_pointer_from
      = 0x401000 ∧
    (Branch.new 0x401000 0x402000 false true false false 7).instruction_pointer_to
      = 0x402000 ∧
    (Branch.new 0x401000 0x402000 false true false false 7).is_mispredicted = false ∧
    (Branch.new 0x401000 0x402000 false true false false 7).is_predicted = true ∧
    (Branch.new 0x401000 0x402000 false true false false 7).is_in_transaction = false ∧
    (Branch.new 0x401000 0x402000 false true false false 7).is_transaction_abort = false ∧
    (Branch.new 0x401000 0x402000 false true false false 7).cycles = 7 :=
  ⟨by decide, by decide, by decide,
    C11_branch_accessors_return_arguments 0x401000 0x402000 false true false false 7
      (by decide) (by decide) (by decide)⟩

/-! ## Hops, level numbers, local and remote RAM -/

/-- C14, evaluated on the code: in the descriptor 0x1A00000000 (lvl_num = RAM,
remote = 0, hops = 0) the address was found in the local RAM (is_mem_local_ram is
true), but is_mem_hops0, documented as "True, if the memory address was found in
the local RAM", returns false: it only compares the hops sub-field with
PERF_MEM_HOPS_0. -/
theorem C14_local_ram_hops0_divergence :
    (0x1A00000000 : Nat) < 2 ^ 64 ∧
    (DataSource.mk 0x1A00000000).hops = 0 ∧
    (DataSource.mk 0x1A00000000).is_mem_local_ram = true ∧
    (DataSource.mk 0x1A00000000).is_mem_hops0 = false := by
  decide

theorem DataSource.hops_lt (d : DataSource) : d.hops < 8 :=
  Nat.mod_lt _ (by decide)

theorem DataSource.lvl_num_lt (d : DataSource) : d.lvl_num < 16 :=
  Nat.mod_lt _ (by decide)

/-- C15: for every 64-bit descriptor, is_mem_hops0 .. is_mem_hops3 are true
exactly when the 3-bit hops sub-field (bits 43-45) equals 1, 2, 3, 4
respectively (the values of PERF_MEM_HOPS_0 .. PERF_MEM_HOPS_3); at most one of
the four is true, and all four are false when the sub-field is 0, 5, 6 or 7. -/
theorem C15_hops_predicates (d : DataSource) (hd : d._data_source < 2 ^ 64) :
    d.hops = (d._data_source >>> 43) &&& 0x7 ∧
    (d.is_mem_hops0 = true ↔ d.hops = 1) ∧
    (d.is_mem_hops1 = true ↔ d.hops = 2) ∧
    (d.is_mem_hops2 = true ↔ d.hops = 3) ∧
    (d.is_mem_hops3 = true ↔ d.hops = 4) ∧
    PERF_MEM_HOPS_0 = 1 ∧ PERF_MEM_HOPS_1 = 2 ∧ PERF_MEM_HOPS_2 = 3 ∧ PERF_MEM_HOPS_3 = 4 ∧
    [d.is_mem_hops0, d.is_mem_hops1, d.is_mem_hops2, d.is_mem_hops3].count true ≤ 1 ∧
    (d.hops = 0 ∨ d.hops = 5 ∨ d.hops = 6 ∨ d.hops = 7 →
      d.is_mem_hops0 = false ∧ d.is_mem_hops1 = false ∧
      d.is_mem_hops2 = false ∧ d.is_mem_hops3 = false) := by
  have _ := hd
  have key : ∀ n, n < 8 →
      ((n == PERF_MEM_HOPS_0) = true ↔ n = 1) ∧ ((n == PERF_MEM_HOPS_1) = true ↔ n = 2) ∧
      ((n == PERF_MEM_HOPS_2) = true ↔ n = 3) ∧ ((n == PERF_MEM_HOPS_3) = true ↔ n = 4) ∧
      [n == PERF_MEM_HOPS_0, n == PERF_MEM_HOPS_1, n == PERF_MEM_HOPS_2,
        n == PERF_MEM_HOPS_3].count true ≤ 1 ∧
      (n = 0 ∨ n = 5 ∨ n = 6 ∨ n = 7 →
        (n == PERF_MEM_HOPS_0) = false ∧ (n == PERF_MEM_HOPS_1) = false ∧
        (n == PERF_MEM_HOPS_2) = false ∧ (n == PERF_MEM_HOPS_3) = false) := by
    decide
  obtain ⟨h0, h1, h2, h3, hc, hz⟩ := key d.hops d.hops_lt
  refine ⟨?_, h0, h1, h2, h3, rfl, rfl, rfl, rfl, hc, hz⟩
  simp only [DataSource.hops, readMember_eq_shift_mask]
  rfl

/-- C15 at the descriptor 0x100408000442 (hops = 2): only is_mem_hops1 holds. -/
theorem C15_hops_predicates_witness :
    (0x100408000442 : Nat) < 2 ^ 64 ∧
    (DataSource.mk 0x100408000442).hops = 2 ∧
    (DataSource.mk 0x100408000442).is_mem_hops1 = true ∧
    [(DataSource.mk 0x100408000442).is_mem_hops0, (DataSource.mk 0x100408000442).is_mem_hops1,
      (DataSource.mk 0x100408000442).is_mem_hops2,
      (DataSource.mk 0x100408000442).is_mem_hops3].count true ≤ 1 :=
  have h := C15_hops_predicates (DataSource.mk 0x100408000442) (by decide)
  ⟨by decide, by decide, h.2.2.1.mpr (by decide), h.2.2.2.2.2.2.2.2.2.1⟩

/-- C16: for every 64-bit descriptor, at most one of the nine level-number
predicates is_mem_l1, is_mem_l2, is_mem_l3, is_mem_l4, is_cxl, is_io, is_mem_lfb,
is_mem_ram, is_pmem is true. -/
theorem C16_level_number_predicates_exclusive (d : DataSource)
    (hd : d._data_source < 2 ^ 64) :
    [d.is_mem_l1, d.is_mem_l2, d.is_mem_l3, d.is_mem_l4, d.is_cxl, d.is_io, d.is_mem_lfb,
      d.is_mem_ram, d.is_pmem].count true ≤ 1 := by
  have _ := hd
  have key : ∀ n, n < 16 →
      [n == PERF_MEM_LVLNUM_L1, n == PERF_MEM_LVLNUM_L2, n == PERF_MEM_LVLNUM_L3,
        n == PERF_MEM_LVLNUM_L4, n == PERF_MEM_LVLNUM_CXL, n == PERF_MEM_LVLNUM_IO,
        n == PERF_MEM_LVLNUM_LFB, n == PERF_MEM_LVLNUM_RAM,
        n == PERF_MEM_LVLNUM_PMEM].count true ≤ 1 := by
    decide
  exact key d.lvl_num d.lvl_num_lt

/-- C16 at the descriptor 0x1A00000000 (lvl_num = RAM). -/
theorem C16_level_number_witness :
    (0x1A00000000 : Nat) < 2 ^ 64 ∧
    (DataSource.mk 0x1A00000000).is_mem_ram = true ∧
    [(DataSource.mk 0x1A00000000).is_mem_l1, (DataSource.mk 0x1A00000000).is_mem_l2,
      (DataSource.mk 0x1A00000000).is_mem_l3, (DataSource.mk 0x1A00000000).is_mem_l4,
      (DataSource.mk 0x1A00000000).is_cxl, (DataSource.mk 0x1A00000000).is_io,
      (DataSource.mk 0x1A00000000).is_mem_lfb, (DataSource.mk 0x1A00000000).is_mem_ram,
      (DataSource.mk 0x1A00000000).is_pmem].count true ≤ 1 :=
  ⟨by decide, by decide,
    C16_level_number_predicates_exclusive (DataSource.mk 0x1A00000000) (by decide)⟩

/-- C17: for every 64-bit descriptor, is_mem_ram is true if and only if exactly
one of is_mem_local_ram and is_mem_remote_ram is true, and when is_mem_ram is
false both are false. -/
theorem C17_local_remote_partition_ram (d : DataSource) (hd : d._data_source < 2 ^ 64) :
    (d.is_mem_ram = true ↔
      (d.is_mem_local_ram = true ∧ d.is_mem_remote_ram = false) ∨
      (d.is_mem_local_ram = false ∧ d.is_mem_remote_ram = true)) ∧
    (d.is_mem_ram = false → d.is_mem_local_ram = false ∧ d.is_mem_remote_ram = false) := by
  have _ := hd
  simp only [DataSource.is_mem_ram, DataSource.is_mem_local_ram, DataSource.is_mem_remote_ram,
    bne]
  cases d.lvl_num == PERF_MEM_LVLNUM_RAM <;> cases d.remote == PERF_MEM_REMOTE_REMOTE <;>
    decide

/-- C17 at 0x1A00000000 (RAM, not remote) and at 0x3A00000000 (RAM, remote). -/
theorem C17_local_remote_witness :
    (0x1A00000000 : Nat) < 2 ^ 64 ∧
    (DataSource.mk 0x1A00000000).is_mem_ram = true ∧
    ((DataSource.mk 0x1A00000000).is_mem_local_ram = true ∧
        (DataSource.mk 0x1A00000000).is_mem_remote_ram = false ∨
      (DataSource.mk 0x1A00000000).is_mem_local_ram = false ∧
        (DataSource.mk 0x1A00000000).is_mem_remote_ram = true) ∧
    (DataSource.mk 0x3A00000000).is_mem_remote_ram = true :=
  ⟨by decide, by decide,
    (C17_local_remote_partition_ram (DataSource.mk 0x1A00000000) (by decide)).1.mp (by decide),
    by decide⟩

/-! ## Bits that no predicate reads -/

/-- Two words that agree on every bit of member `f` give the same reading of `f`. -/
theorem readMember_congr (v w : Nat) (f : MemField)
    (h : ∀ i, i < bitWidth perf_mem_data_src f →
      v.testBit (bitOffset perf_mem_data_src f + i)
        = w.testBit (bitOffset perf_mem_data_src f + i)) :
    readMember v f = readMember w f := by
  rw [readMember_eq_shift_mask, readMember_eq_shift_mask]
  apply Nat.eq_of_testBit_eq
  intro i
  simp only [Nat.testBit_and, Nat.testBit_shiftRight, Nat.testBit_two_pow_sub_one]
  by_cases hi : i < bitWidth perf_mem_data_src f
  · rw [h i hi]
  · simp [hi]

/-- C18: for every pair of 64-bit descriptors `v`, `w` that agree on bits 0-37
and 40-45 (so differ at most in the snoopx bits 38-39 and the reserved bits
46-63), every predicate of `DataSource` returns the same result on both. -/
theorem C18_unused_bits_do_not_matter (v w : Nat) (hv : v < 2 ^ 64) (hw : w < 2 ^ 64)
    (hagree : ∀ i, i < 38 ∨ (40 ≤ i ∧ i < 46) → v.testBit i = w.testBit i) :
    (DataSource.mk v).is_load = (DataSource.mk w).is_load ∧
    (DataSource.mk v).is_store = (DataSource.mk w).is_store ∧
    (DataSource.mk v).is_prefetch = (DataSource.mk w).is_prefetch ∧
    (DataSource.mk v).is_exec = (DataSource.mk w).is_exec ∧
    (DataSource.mk v).is_na = (DataSource.mk w).is_na ∧
    (DataSource.mk v).is_mem_hit = (DataSource.mk w).is_mem_hit ∧
    (DataSource.mk v).is_mem_miss = (DataSource.mk w).is_mem_miss ∧
    (DataSource.mk v).is_mem_l1 = (DataSource.mk w).is_mem_l1 ∧
    (DataSource.mk v).is_mem_lfb = (DataSource.mk w).is_mem_lfb ∧
    (DataSource.mk v).is_mem_l2 = (DataSource.mk w).is_mem_l2 ∧
    (DataSource.mk v).is_mem_l3 = (DataSource.mk w).is_mem_l3 ∧
    (DataSource.mk v).is_mem_l4 = (DataSource.mk w).is_mem_l4 ∧
    (DataSource.mk v).is_mem_ram = (DataSource.mk w).is_mem_ram ∧
    (DataSource.mk v).is_mem_local_ram = (DataSource.mk w).is_mem_local_ram ∧
    (DataSource.mk v).is_mem_remote_ram = (DataSource.mk w).is_mem_remote_ram ∧
    (DataSource.mk v).is_mem_hops0 = (DataSource.mk w).is_mem_hops0 ∧
    (DataSource.mk v).is_mem_hops1 = (DataSource.mk w).is_mem_hops1 ∧
    (DataSource.mk v).is_mem_hops2 = (DataSource.mk w).is_mem_hops2 ∧
    (DataSource.mk v).is_mem_hops3 = (DataSource.mk w).is_mem_hops3 ∧
    (DataSource.mk v).is_mem_remote_ram1 = (DataSource.mk w).is_mem_remote_ram1 ∧
    (DataSource.mk v).is_mem_remote_ram2 = (DataSource.mk w).is_mem_remote_ram2 ∧
    (DataSource.mk v).is_mem_remote_ram3 = (DataSource.mk w).is_mem_remote_ram3 ∧
    (DataSource.mk v).is_mem_remote_cce1 = (DataSource.mk w).is_mem_remote_cce1 ∧
    (DataSource.mk v).is_mem_remote_cce2 = (DataSource.mk w).is_mem_remote_cce2 ∧
    (DataSource.mk v).is_pmem = (DataSource.mk w).is_pmem ∧
    (DataSource.mk v).is_cxl = (DataSource.mk w).is_cxl ∧
    (DataSource.mk v).is_io = (DataSource.mk w).is_io ∧
    (DataSource.mk v).is_tlb_hit = (DataSource.mk w).is_tlb_hit ∧
    (DataSource.mk v).is_tlb_miss = (DataSource.mk w).is_tlb_miss ∧
    (DataSource.mk v).is_tlb_l1 = (DataSource.mk w).is_tlb_l1 ∧
    (DataSource.mk v).is_tlb_l2 = (DataSource.mk w).is_tlb_l2 ∧
    (DataSource.mk v).is_tlb_walk = (DataSource.mk w).is_tlb_walk ∧
    (DataSource.mk v).is_locked = (DataSource.mk w).is_locked ∧
    (DataSource.mk v).is_data_blocked = (DataSource.mk w).is_data_blocked ∧
    (DataSource.mk v).is_address_blocked = (DataSource.mk w).is_address_blocked ∧
    (DataSource.mk v).is_snoop_hit = (DataSource.mk w).is_snoop_hit ∧
    (DataSource.mk v).is_snoop_miss = (DataSource.mk w).is_snoop_miss ∧
    (DataSource.mk v).is_snoop_hit_modified = (DataSource.mk w).is_snoop_hit_modified := by
  have _ := hv
  have _ := hw
  have hop : (DataSource.mk v).op = (DataSource.mk w).op :=
    readMember_congr v w .mem_op (fun i hi => hagree _ (by
      have : bitWidth perf_mem_data_src .mem_op = 5 := rfl
      have : bitOffset perf_mem_data_src .mem_op = 0 := rfl
      omega))
  have hlvl : (DataSource.mk v).lvl = (DataSource.mk w).lvl :=
    readMember_congr v w .mem_lvl (fun i hi => hagree _ (by
      have : bitWidth perf_mem_data_src .mem_lvl = 14 := rfl
      have : bitOffset perf_mem_data_src .mem_lvl = 5 := rfl
      omega))
  have hsnoop : (DataSource.mk v).snoop = (DataSource.mk w).snoop :=
    readMember_congr v w .mem_snoop (fun i hi => hagree _ (by
      have : bitWidth perf_mem_data_src .mem_snoop = 5 := rfl
      have : bitOffset perf_mem_data_src .mem_snoop = 19 := rfl
      omega))
  have hlock : (DataSource.mk v).lock = (DataSource.mk w).lock :=
    readMember_congr v w .mem_lock (fun i hi => hagree _ (by
      have : bitWidth perf_mem_data_src .mem_lock = 2 := rfl
      have : bitOffset perf_mem_data_src .mem_lock = 24 := rfl
      omega))
  have htlb : (DataSource.mk v).tlb = (DataSource.mk w).tlb :=
    readMember_congr v w .mem_dtlb (fun i hi => hagree _ (by
      have : bitWidth perf_mem_data_src .mem_dtlb = 7 := rfl
      have : bitOffset perf_mem_data_src .mem_dtlb = 26 := rfl
      omega))
  have hnum : (DataSource.mk v).lvl_num = (DataSource.mk w).lvl_num :=
    readMember_congr v w .mem_lvl_num (fun i hi => hagree _ (by
      have : bitWidth perf_mem_data_src .mem_lvl_num = 4 := rfl
      have : bitOffset perf_mem_data_src .mem_lvl_num = 33 := rfl
      omega))
  have hremote : (DataSource.mk v).remote = (DataSource.mk w).remote :=
    readMember_congr v w .mem_remote (fun i hi => hagree _ (by
      have : bitWidth perf_mem_data_src .mem_remote = 1 := rfl
      have : bitOffset perf_mem_data_src .mem_remote = 37 := rfl
      omega))
  have hblk : (DataSource.mk v).blk = (DataSource.mk w).blk :=
    readMember_congr v w .mem_blk (fun i hi => hagree _ (by
      have : bitWidth perf_mem_data_src .mem_blk = 3 := rfl
      have : bitOffset perf_mem_data_src .mem_blk = 40 := rfl
      omega))
  have hhops : (DataSource.mk v).hops = (DataSource.mk w).hops :=
    readMember_congr v w .mem_hops (fun i hi => hagree _ (by
      have : bitWidth perf_mem_data_src .mem_hops = 3 := rfl
      have : bitOffset perf_mem_data_src .mem_hops = 43 := rfl
      omega))
  simp only [DataSource.is_load, DataSource.is_store, DataSource.is_prefetch, DataSource.is_exec, DataSource.is_na, DataSource.is_mem_hit, DataSource.is_mem_miss, DataSource.is_mem_l1, DataSource.is_mem_lfb, DataSource.is_mem_l2, DataSource.is_mem_l3, DataSource.is_mem_l4, DataSource.is_mem_ram, DataSource.is_mem_local_ram, DataSource.is_mem_remote_ram, DataSource.is_mem_hops0, DataSource.is_mem_hops1, DataSource.is_mem_hops2, DataSource.is_mem_hops3, DataSource.is_mem_remote_ram1, DataSource.is_mem_remote_ram2, DataSource.is_mem_remote_ram3, DataSource.is_mem_remote_cce1, DataSource.is_mem_remote_cce2, DataSource.is_pmem, DataSource.is_cxl, DataSource.is_io, DataSource.is_tlb_hit, DataSource.is_tlb_miss, DataSource.is_tlb_l1, DataSource.is_tlb_l2, DataSource.is_tlb_walk, DataSource.is_locked, DataSource.is_data_blocked, DataSource.is_address_blocked, DataSource.is_snoop_hit, DataSource.is_snoop_miss, DataSource.is_snoop_hit_modified,
    hop, hlvl, hsnoop, hlock, htlb, hnum, hremote, hblk, hhops, and_self]

/-- The bits of 0x100408000442 and 0xFFFFD0C408000442 agree outside 38-39 and
46-63: the two words have the same low 38 bits and the same bits 40-45. -/
theorem agree_example (i : Nat) (hi : i < 38 ∨ (40 ≤ i ∧ i < 46)) :
    (0x100408000442 : Nat).testBit i = (0xFFFFD0C408000442 : Nat).testBit i := by
  have h : ∀ j, j < 46 → (j < 38 ∨ (40 ≤ j ∧ j < 46)) →
      (0x100408000442 : Nat).testBit j = (0xFFFFD0C408000442 : Nat).testBit j := by
    decide
  exact h i (by omega) hi

/-- C18 at 0x100408000442 and 0xFFFFD0C408000442, which differ exactly in the
snoopx bits and the reserved bits: is_load and is_mem_l2 agree (and are true). -/
theorem C18_unused_bits_witness :
    (0x100408000442 : Nat) < 2 ^ 64 ∧ (0xFFFFD0C408000442 : Nat) < 2 ^ 64 ∧
    (DataSource.mk 0xFFFFD0C408000442).snoopx = 3 ∧
    (DataSource.mk 0x100408000442).is_load = (DataSource.mk 0xFFFFD0C408000442).is_load ∧
    (DataSource.mk 0x100408000442).is_mem_l2 = (DataSource.mk 0xFFFFD0C408000442).is_mem_l2 ∧
    (DataSource.mk 0xFFFFD0C408000442).is_mem_l2 = true :=
  have h := C18_unused_bits_do_not_matter 0x100408000442 0xFFFFD0C408000442 (by decide) (by decide) agree_example
  ⟨by decide, by decide, by decide, h.1, h.2.2.2.2.2.2.2.2.2.1, by decide⟩

/-! ## The accessors partition the low 46 bits -/

theorem bitWidth_values :
    bitWidth perf_mem_data_src .mem_op = 5 ∧ bitWidth perf_mem_data_src .mem_lvl = 14 ∧
    bitWidth perf_mem_data_src .mem_snoop = 5 ∧ bitWidth perf_mem_data_src .mem_lock = 2 ∧
    bitWidth perf_mem_data_src .mem_dtlb = 7 ∧ bitWidth perf_mem_data_src .mem_lvl_num = 4 ∧
    bitWidth perf_mem_data_src .mem_remote = 1 ∧ bitWidth perf_mem_data_src .mem_snoopx = 2 ∧
    bitWidth perf_mem_data_src .mem_blk = 3 ∧ bitWidth perf_mem_data_src .mem_hops = 3 ∧
    bitWidth perf_mem_data_src .mem_rsvd = 18 := by
  decide

/-- The ten accessors as divisions and remainders by literal powers of two. -/
theorem accessors_div_mod (x : Nat) :
    (DataSource.mk x).op = x % 32 ∧
    (DataSource.mk x).lvl = x / 32 % 16384 ∧
    (DataSource.mk x).snoop = x / 524288 % 32 ∧
    (DataSource.mk x).lock = x / 16777216 % 4 ∧
    (DataSource.mk x).tlb = x / 67108864 % 128 ∧
    (DataSource.mk x).lvl_num = x / 8589934592 % 16 ∧
    (DataSource.mk x).remote = x / 137438953472 % 2 ∧
    (DataSource.mk x).snoopx = x / 274877906944 % 4 ∧
    (DataSource.mk x).blk = x / 1099511627776 % 8 ∧
    (DataSource.mk x).hops = x / 8796093022208 % 8 := by
  refine ⟨?_, ?_, ?_, ?_, ?_, ?_, ?_, ?_, ?_, ?_⟩ <;>
    simp [DataSource.op, DataSource.lvl, DataSource.snoop, DataSource.lock, DataSource.tlb,
      DataSource.lvl_num, DataSource.remote, DataSource.snoopx, DataSource.blk,
      DataSource.hops, readMember, bitOffset_values, bitWidth_values]

/-- Reading the field `x` of width `B` at position `A` out of a packed word:
`lo` is everything below the field, `hi` everything above it. -/
theorem extract_field (A B lo x hi : Nat) (hlo : lo < A) (hx : x < B) :
    (lo + x * A + hi * (A * B)) / A % B = x := by
  have hA : 0 < A := by omega
  have e : lo + x * A + hi * (A * B) = lo + A * (x + hi * B) := by ring
  rw [e, Nat.add_mul_div_left _ _ hA, Nat.div_eq_of_lt hlo, Nat.zero_add,
    Nat.add_mul_mod_self_right, Nat.mod_eq_of_lt hx]

/-- C19: the ten sub-field accessors are independent and lossless on the low 46
bits.  For every 64-bit descriptor `v`, `v mod 2^46` is the sum of the accessor
values shifted to their positions; and for any ten values within the field widths
(5, 14, 5, 2, 7, 4, 1, 2, 3, 3 bits), the descriptor `p` packed from them reads
back each value through its accessor. -/
theorem C19_accessors_lossless (v : Nat) (hv : v < 2 ^ 64)
    (a_op a_lvl a_snoop a_lock a_tlb a_lvl_num a_remote a_snoopx a_blk a_hops p : Nat)
    (h_op : a_op < 2 ^ 5)
    (h_lvl : a_lvl < 2 ^ 14)
    (h_snoop : a_snoop < 2 ^ 5)
    (h_lock : a_lock < 2 ^ 2)
    (h_tlb : a_tlb < 2 ^ 7)
    (h_lvl_num : a_lvl_num < 2 ^ 4)
    (h_remote : a_remote < 2 ^ 1)
    (h_snoopx : a_snoopx < 2 ^ 2)
    (h_blk : a_blk < 2 ^ 3)
    (h_hops : a_hops < 2 ^ 3)
    (hp : p = a_op + a_lvl * 2 ^ 5 + a_snoop * 2 ^ 19 + a_lock * 2 ^ 24 + a_tlb * 2 ^ 26 + a_lvl_num * 2 ^ 33 + a_remote * 2 ^ 37 + a_snoopx * 2 ^ 38 + a_blk * 2 ^ 40 + a_hops * 2 ^ 43) :
    v % 2 ^ 46 =
        (DataSource.mk v).op +
        (DataSource.mk v).lvl * 2 ^ 5 +
        (DataSource.mk v).snoop * 2 ^ 19 +
        (DataSource.mk v).lock * 2 ^ 24 +
        (DataSource.mk v).tlb * 2 ^ 26 +
        (DataSource.mk v).lvl_num * 2 ^ 33 +
        (DataSource.mk v).remote * 2 ^ 37 +
        (DataSource.mk v).snoopx * 2 ^ 38 +
        (DataSource.mk v).blk * 2 ^ 40 +
        (DataSource.mk v).hops * 2 ^ 43 ∧
    p < 2 ^ 46 ∧
    (DataSource.mk p).op = a_op ∧
    (DataSource.mk p).lvl = a_lvl ∧
    (DataSource.mk p).snoop = a_snoop ∧
    (DataSource.mk p).lock = a_lock ∧
    (DataSource.mk p).tlb = a_tlb ∧
    (DataSource.mk p).lvl_num = a_lvl_num ∧
    (DataSource.mk p).remote = a_remote ∧
    (DataSource.mk p).snoopx = a_snoopx ∧
    (DataSource.mk p).blk = a_blk ∧
    (DataSource.mk p).hops = a_hops := by
  have _ := hv
  obtain ⟨v0, v1, v2, v3, v4, v5, v6, v7, v8, v9⟩ := accessors_div_mod v
  obtain ⟨p0, p1, p2, p3, p4, p5, p6, p7, p8, p9⟩ := accessors_div_mod p
  rw [v0, v1, v2, v3, v4, v5, v6, v7, v8, v9, p0, p1, p2, p3, p4, p5, p6, p7, p8, p9]
  norm_num at *
  refine ⟨?_, ?_, ?_, ?_, ?_, ?_, ?_, ?_, ?_, ?_, ?_, ?_⟩
  · omega
  · omega
  · have e : p = a_op + (a_lvl + a_snoop * 16384 + a_lock * 524288 + a_tlb * 2097152 + a_lvl_num * 268435456 + a_remote * 4294967296 + a_snoopx * 8589934592 + a_blk * 34359738368 + a_hops * 274877906944) * 32 := by omega
    rw [e, Nat.add_mul_mod_self_right, Nat.mod_eq_of_lt h_op]
  · have e : p = (a_op) + a_lvl * 32 +
        (a_snoop + a_lock * 32 + a_tlb * 128 + a_lvl_num * 16384 + a_remote * 262144 + a_snoopx * 524288 + a_blk * 2097152 + a_hops * 16777216) * (32 * 16384) := by omega
    rw [e]
    exact extract_field 32 16384 _ a_lvl _ (by omega) h_lvl
  · have e : p = (a_op + a_lvl * 32) + a_snoop * 524288 +
        (a_lock + a_tlb * 4 + a_lvl_num * 512 + a_remote * 8192 + a_snoopx * 16384 + a_blk * 65536 + a_hops * 524288) * (524288 * 32) := by omega
    rw [e]
    exact extract_field 524288 32 _ a_snoop _ (by omega) h_snoop
  · have e : p = (a_op + a_lvl * 32 + a_snoop * 524288) + a_lock * 16777216 +
        (a_tlb + a_lvl_num * 128 + a_remote * 2048 + a_snoopx * 4096 + a_blk * 16384 + a_hops * 131072) * (16777216 * 4) := by omega
    rw [e]
    exact extract_field 16777216 4 _ a_lock _ (by omega) h_lock
  · have e : p = (a_op + a_lvl * 32 + a_snoop * 524288 + a_lock * 16777216) + a_tlb * 67108864 +
        (a_lvl_num + a_remote * 16 + a_snoopx * 32 + a_blk * 128 + a_hops * 1024) * (67108864 * 128) := by omega
    rw [e]
    exact extract_field 67108864 128 _ a_tlb _ (by omega) h_tlb
  · have e : p = (a_op + a_lvl * 32 + a_snoop * 524288 + a_lock * 16777216 + a_tlb * 67108864) + a_lvl_num * 8589934592 +
        (a_remote + a_snoopx * 2 + a_blk * 8 + a_hops * 64) * (8589934592 * 16) := by omega
    rw [e]
    exact extract_field 8589934592 16 _ a_lvl_num _ (by omega) h_lvl_num
  · have e : p = (a_op + a_lvl * 32 + a_snoop * 524288 + a_lock * 16777216 + a_tlb * 67108864 + a_lvl_num * 8589934592) + a_remote * 137438953472 +
        (a_snoopx + a_blk * 4 + a_hops * 32) * (137438953472 * 2) := by omega
    rw [e]
    exact extract_field 137438953472 2 _ a_remote _ (by omega) h_remote
  · have e : p = (a_op + a_lvl * 32 + a_snoop * 524288 + a_lock * 16777216 + a_tlb * 67108864 + a_lvl_num * 8589934592 + a_remote * 137438953472) + a_snoopx * 274877906944 +
        (a_blk + a_hops * 8) * (274877906944 * 4) := by omega
    rw [e]
    exact extract_field 274877906944 4 _ a_snoopx _ (by omega) h_snoopx
  · have e : p = (a_op + a_lvl * 32 + a_snoop * 524288 + a_lock * 16777216 + a_tlb * 67108864 + a_lvl_num * 8589934592 + a_remote * 137438953472 + a_snoopx * 274877906944) + a_blk * 1099511627776 +
        (a_hops) * (1099511627776 * 8) := by omega
    rw [e]
    exact extract_field 1099511627776 8 _ a_blk _ (by omega) h_blk
  · have e : p = (a_op + a_lvl * 32 + a_snoop * 524288 + a_lock * 16777216 + a_tlb * 67108864 + a_lvl_num * 8589934592 + a_remote * 137438953472 + a_snoopx * 274877906944 + a_blk * 1099511627776) + a_hops * 8796093022208 +
        (0) * (8796093022208 * 8) := by omega
    rw [e]
    exact extract_field 8796093022208 8 _ a_hops _ (by omega) h_hops

/-- C19 at the descriptor 0xfffff9df051e7f20, and for the values op = 2,
lvl = 0x22, snoop = 4, lock = 2, tlb = 2, lvl_num = 13, remote = 1, snoopx = 3,
blk = 4, hops = 4, which pack to 0x24fa0a200442. -/
theorem C19_accessors_lossless_witness :
    (0xfffff9df051e7f20 : Nat) < 2 ^ 64 ∧
    (0xfffff9df051e7f20 : Nat) % 2 ^ 46 = 0x39df051e7f20 ∧
    (DataSource.mk 0x24fa0a200442).op = 2 ∧
    (DataSource.mk 0x24fa0a200442).lvl = 34 ∧
    (DataSource.mk 0x24fa0a200442).snoop = 4 ∧
    (DataSource.mk 0x24fa0a200442).lock = 2 ∧
    (DataSource.mk 0x24fa0a200442).tlb = 2 ∧
    (DataSource.mk 0x24fa0a200442).lvl_num = 13 ∧
    (DataSource.mk 0x24fa0a200442).remote = 1 ∧
    (DataSource.mk 0x24fa0a200442).snoopx = 3 ∧
    (DataSource.mk 0x24fa0a200442).blk = 4 ∧
    (DataSource.mk 0x24fa0a200442).hops = 4 :=
  have h := C19_accessors_lossless 0xfffff9df051e7f20 (by decide) 2 34 4 2 2 13 1 3 4 4 0x24fa0a200442
    (by decide) (by decide) (by decide) (by decide) (by decide) (by decide) (by decide)
    (by decide) (by decide) (by decide) (by decide)
  ⟨by decide, by decide, h.2.2⟩


/-! ## Bytes and raw records -/

theorem RingBufferReader.offset_eq_mod (r : RingBufferReader) (k : Nat)
    (hsize : r.data.length = 2 ^ k) : r.offset = r.data_tail % r.data.length := by
  unfold RingBufferReader.offset
  rw [hsize, Nat.and_pow_two_sub_one_eq_mod]

/-- C13: for every reader over a data region whose size is a power of two, with a
pending raw record whose declared size makes the read run past the end of the
region (and is at most the size of the region), `next_raw_record()` returns
exactly `size` bytes: the chunk from the consumer offset to the end of the region
followed by the chunk at its start, so that byte `i` of the result is the byte of
the region at position `(data_tail + i) mod size of the region`. -/
theorem C13_wrapped_record_reassembled (r : RingBufferReader) (k : Nat)
    (hsize : r.data.length = 2 ^ k)
    (hpending : r.data_tail < r.data_head)
    (hfits : r.record_size ≤ r.data.length)
    (hwrap : r.data.length < r.offset + r.record_size) :
    ∃ bytes, r.next_raw_record = some bytes ∧
      bytes.length = r.record_size ∧
      bytes = r.data.drop r.offset ++ r.data.take (r.offset + r.record_size - r.data.length) ∧
      ∀ i, i < r.record_size → bytes[i]? = r.data[(r.data_tail + i) % r.data.length]? := by
  have hoff := r.offset_eq_mod k hsize
  have hpos : 0 < r.data.length := by rw [hsize]; exact Nat.two_pow_pos k
  have hlt : r.offset < r.data.length := by rw [hoff]; exact Nat.mod_lt _ hpos
  refine ⟨r.data.drop r.offset ++ r.data.take (r.offset + r.record_size - r.data.length),
    ?_, ?_, rfl, ?_⟩
  · have hcopy : r.copy_out r.record_size =
        r.data.drop r.offset ++ r.data.take (r.offset + r.record_size - r.data.length) := by
      unfold RingBufferReader.copy_out
      rw [if_neg (by omega)]
      congr 2
      omega
    simp [RingBufferReader.next_raw_record, RingBufferReader.has_pending, hpending, hcopy]
  · simp only [List.length_append, List.length_drop, List.length_take]
    omega
  · intro i hi
    have hmod : (r.data_tail + i) % r.data.length = (r.offset + i) % r.data.length := by
      rw [hoff, Nat.mod_add_mod]
    rw [hmod]
    by_cases hlow : r.offset + i < r.data.length
    · rw [Nat.mod_eq_of_lt hlow, List.getElem?_append_left (by
        simp only [List.length_drop]; omega), List.getElem?_drop]
    · have hge : r.data.length ≤ r.offset + i := by omega
      rw [Nat.mod_eq_sub_mod hge, Nat.mod_eq_of_lt (by omega),
        List.getElem?_append_right (by simp only [List.length_drop]; omega),
        List.getElem?_take]
      simp only [List.length_drop]
      rw [if_pos (by omega)]
      congr 1
      omega

/-- C13 on `wrapped_example`: the 16-byte record written across the end of the
32-byte region is returned whole, header first. -/
theorem C13_wrapped_record_witness :
    wrapped_example.data.length = 2 ^ 5 ∧
    wrapped_example.data_tail < wrapped_example.data_head ∧
    wrapped_example.record_size ≤ wrapped_example.data.length ∧
    wrapped_example.data.length < wrapped_example.offset + wrapped_example.record_size ∧
    wrapped_example.next_raw_record =
      some [9, 0, 0, 0, 2, 0, 16, 0, 0x11, 0x22, 0x33, 0x44, 0x55, 0x66, 0x77, 0x88] ∧
    ∃ bytes, wrapped_example.next_raw_record = some bytes ∧
      bytes.length = wrapped_example.record_size ∧
      bytes = wrapped_example.data.drop wrapped_example.offset ++
        wrapped_example.data.take
          (wrapped_example.offset + wrapped_example.record_size
            - wrapped_example.data.length) ∧
      ∀ i, i < wrapped_example.record_size →
        bytes[i]? =
          wrapped_example.data[(wrapped_example.data_tail + i) %
            wrapped_example.data.length]? :=
  ⟨by decide, by decide, by decide, by decide, by decide,
    C13_wrapped_record_reassembled wrapped_example 5 (by decide) (by decide) (by decide)
      (by decide)⟩

/-! ## The sampler on the example mask -/

end perf
